import Mathlib

/-!
Shallow embedding of the dynamic-QR ticket-verification engine of the
FairPass repository, together with proofs about the natural-language
specification of that engine.

The repository contains three parallel persistence implementations of the
engine; each is embedded in its own namespace:

* `JSONDatabase`     — the JSON-file variant (class `JSONDatabase`);
* `FairPassDB`       — the SQLite variant (`backend/database/db.js`);
* `FairPassMongoDB`  — the MongoDB variant (`backend/database/mongodb.js`).

Conventions used throughout the embedding:

* Timestamps are naturals counting milliseconds since the epoch
  (`Date.now()` in the source).  Stored ISO strings round-trip through
  `new Date(...)`, so they are modelled directly by their millisecond value.
* JavaScript `null` becomes `Option.none`.  A nullable expiry read through
  `new Date(ticket.token_expires_at)` yields the epoch (0 ms) when the field
  is `null`, which the embedding renders as `Option.getD 0`.
* `crypto.createHash("sha256").update(s).digest("hex")` is modelled by an
  explicit byte-level hash parameter `shaBytes : String → List Nat`
  (the 32 output bytes) composed with a concrete hex encoder, so that the
  shape of digests is captured without axiomatising SHA-256 itself.
* Randomness (`crypto.randomBytes`, `Math.random`) is passed in as explicit
  arguments, making every operation a pure function of state, time and the
  random input.
-/

/-- Replace the first element of a list satisfying `p` by its image under
`f`, leaving everything else in place.  This is the semantics of the
JavaScript pattern `const i = xs.findIndex(p); xs[i] = f(xs[i])` used by all
mutating operations of the source. -/
def updateFirst (p : α → Bool) (f : α → α) : List α → List α
  | [] => []
  | x :: xs => if p x then f x :: xs else x :: updateFirst p f xs

theorem updateFirst_map_invariant (p : α → Bool) (f : α → α) (g : α → β)
    (hf : ∀ x, g (f x) = g x) : ∀ l : List α, (updateFirst p f l).map g = l.map g := by
  intro l
  induction l with
  | nil => rfl
  | cons x xs ih =>
    by_cases hx : p x
    · simp [updateFirst, hx, hf]
    · simp [updateFirst, hx, ih]

theorem find?_updateFirst (p : α → Bool) (f : α → α)
    (hf : ∀ x, p (f x) = p x) : ∀ l : List α, (updateFirst p f l).find? p = (l.find? p).map f := by
  intro l
  induction l with
  | nil => rfl
  | cons x xs ih =>
    by_cases hx : p x
    · simp [updateFirst, hx, List.find?_cons, hf]
    · simp [updateFirst, hx, List.find?_cons, ih]

theorem forall₂_self_of_refl (R : α → α → Prop) (hrefl : ∀ x, R x x) :
    ∀ l : List α, List.Forall₂ R l l := by
  intro l
  induction l with
  | nil => exact List.Forall₂.nil
  | cons x xs ih => exact List.Forall₂.cons (hrefl x) ih

theorem updateFirst_rel (p : α → Bool) (f : α → α) (R : α → α → Prop)
    (hrefl : ∀ x, R x x) (hf : ∀ x, R x (f x)) :
    ∀ l : List α, List.Forall₂ R l (updateFirst p f l) := by
  intro l
  induction l with
  | nil => exact List.Forall₂.nil
  | cons x xs ih =>
    by_cases hx : p x
    · simp only [updateFirst, hx, if_true]
      exact List.Forall₂.cons (hf x) (forall₂_self_of_refl R hrefl xs)
    · simp only [updateFirst, hx]
      exact List.Forall₂.cons (hrefl x) ih

/-- Hex digit character for a value below 16, lowercase, exactly as produced
by node `Buffer.toString("hex")`. -/
def hexChar (n : Nat) : Char :=
  if n < 10 then Char.ofNat (48 + n) else Char.ofNat (87 + n)

/-- Hex encoding of a byte list as a character list, two lowercase hex digits
per byte. -/
def hexEncodeList : List Nat → List Char
  | [] => []
  | b :: bs => hexChar (b / 16 % 16) :: hexChar (b % 16) :: hexEncodeList bs

/-- Hex encoding of a byte list, as produced by `Buffer.toString("hex")`. -/
def hexEncode (bs : List Nat) : String :=
  ⟨hexEncodeList bs⟩

/-- A character is a lowercase hexadecimal digit. -/
def isLowerHexDigit (c : Char) : Bool :=
  (48 ≤ c.toNat && c.toNat ≤ 57) || (97 ≤ c.toNat && c.toNat ≤ 102)

/-- A string has the shape of a SHA-256 hex digest: 64 characters, each a
lowercase hex digit. -/
def isHexDigest64 (s : String) : Bool :=
  s.data.length == 64 && s.data.all isLowerHexDigit

theorem hexChar_isLowerHexDigit (n : Nat) (h : n < 16) :
    isLowerHexDigit (hexChar n) = true := by
  interval_cases n <;> decide

theorem hexEncode_length (bs : List Nat) : (hexEncode bs).data.length = 2 * bs.length := by
  show (hexEncodeList bs).length = 2 * bs.length
  induction bs with
  | nil => rfl
  | cons b bs ih =>
    simp only [hexEncodeList, List.length_cons, ih]
    omega

theorem hexEncode_all_hex (bs : List Nat) :
    (hexEncode bs).data.all isLowerHexDigit = true := by
  show (hexEncodeList bs).all isLowerHexDigit = true
  induction bs with
  | nil => rfl
  | cons b bs ih =>
    simp only [hexEncodeList, List.all_cons, Bool.and_eq_true]
    exact ⟨hexChar_isLowerHexDigit _ (by omega), hexChar_isLowerHexDigit _ (by omega), ih⟩

/-! ## The JSON-file engine (class `JSONDatabase`, `src/unnamed/part_002`) -/

namespace JSONDatabase

/-- Scanner context supplied to `verifyQRCode`; each field defaults to `null`
via `scannerInfo.x || null` in the source. -/
structure ScannerInfo where
  scannerAddress : Option String := none
  location : Option String := none
  ipAddress : Option String := none
  deriving Repr, DecidableEq

/-- A row of the `tickets` table, as written by `createTicket`.  The
`current_verification_token` and `token_expires_at` fields are nullable
(set to `null` by `confirmTransfer`). -/
structure Ticket where
  id : Nat
  token_id : Nat
  event_id : Nat
  owner_address : String
  purchase_price : Nat
  is_used : Bool
  used_timestamp : Option Nat
  current_verification_token : Option String
  token_expires_at : Option Nat
  last_token_generation : Nat
  deriving Repr, DecidableEq

/-- The slice of an `events` row read by the verification engine. -/
structure Event where
  id : Nat
  name : String
  deriving Repr, DecidableEq

/-- A row of the `qr_verifications` audit table, appended by
`logVerificationAttempt`. -/
structure Verification where
  id : Nat
  ticket_id : Option Nat
  verification_token : String
  scanned_by : Option String
  scan_timestamp : Nat
  scan_result : String
  scan_location : Option String
  ip_address : Option String
  deriving Repr, DecidableEq

/-- A row of the `fraud_alerts` table, appended by `logFraudAttempt`. -/
structure FraudAlert where
  id : Nat
  ticket_id : Option Nat
  alert_type : String
  description : String
  created_at : Nat
  deriving Repr, DecidableEq

/-- A row of the `transfers` table. -/
structure Transfer where
  id : Nat
  transfer_id : String
  ticket_id : Nat
  from_address : String
  to_address : String
  status : String
  expires_at : Nat
  confirmed_at : Option Nat
  deriving Repr, DecidableEq

/-- The mutable tables of the JSON database touched by the QR engine. -/
structure DB where
  tickets : List Ticket
  events : List Event
  verifications : List Verification
  fraud_alerts : List FraudAlert
  transfers : List Transfer
  deriving Repr, DecidableEq

/-- Millisecond value of `new Date(ticket.token_expires_at)`: a `null`
expiry parses to the epoch, 0 ms. -/
def expiryMs (t : Ticket) : Nat :=
  t.token_expires_at.getD 0

/-- `generateVerificationToken`: sha256 hex digest of
`tokenId + "-" + timestamp + "-" + random` where `random` is the hex of 16
fresh bytes (`crypto.randomBytes(16).toString("hex")`).  The hash itself is
the parameter `shaBytes` (its 32 output bytes), composed with the concrete
hex encoder. -/
def generateVerificationToken (shaBytes : String → List Nat) (tokenId : Nat)
    (timestamp : Nat) (randomBytes16 : List Nat) : String :=
  hexEncode (shaBytes (Nat.repr tokenId ++ "-" ++ Nat.repr timestamp ++ "-"
    ++ hexEncode randomBytes16))

/-- Data needed by `createTicket`. -/
structure TicketData where
  tokenId : Nat
  eventId : Nat
  ownerAddress : String
  purchasePrice : Nat
  deriving Repr, DecidableEq

/-- `createTicket`: append a new ticket row holding a fresh verification
token whose expiry is one minute (`Date.now() + 60000`) after creation. -/
def createTicket (shaBytes : String → List Nat) (db : DB) (d : TicketData)
    (now : Nat) (randomBytes16 : List Nat) : DB :=
  let verificationToken := generateVerificationToken shaBytes d.tokenId now randomBytes16
  let newTicket : Ticket :=
    { id := db.tickets.length + 1
      token_id := d.tokenId
      event_id := d.eventId
      owner_address := d.ownerAddress
      purchase_price := d.purchasePrice
      is_used := false
      used_timestamp := none
      current_verification_token := some verificationToken
      token_expires_at := some (now + 60000)
      last_token_generation := now }
  { db with tickets := db.tickets ++ [newTicket] }

/-- Result object of `generateSecureQRData`. -/
structure QRData where
  verificationToken : String
  expiresAt : Nat
  ticketId : Nat
  tokenId : Nat
  eventId : Nat
  timeRemaining : Nat
  deriving Repr, DecidableEq

/-- `generateSecureQRData` (token issuance).  Fails with the
`Unauthorized` error when the ticket is missing or owned by someone else;
returns the stored token unchanged while it is unexpired, and otherwise
writes a fresh token expiring 30 seconds after `now`. -/
def generateSecureQRData (shaBytes : String → List Nat) (db : DB)
    (ticketId : Nat) (ownerAddress : String) (now : Nat)
    (randomBytes16 : List Nat) : Except String (QRData × DB) :=
  match db.tickets.find? (fun t => t.id == ticketId) with
  | none => .error "Unauthorized: Not ticket owner"
  | some ticket =>
    if ticket.owner_address ≠ ownerAddress then
      .error "Unauthorized: Not ticket owner"
    else
      let tokenExpiry := expiryMs ticket
      match ticket.current_verification_token with
      | some tok =>
        if now < tokenExpiry then
          .ok ({ verificationToken := tok
                 expiresAt := tokenExpiry
                 ticketId := ticket.id
                 tokenId := ticket.token_id
                 eventId := ticket.event_id
                 timeRemaining := (tokenExpiry - now) / 1000 }, db)
        else
          let newToken := generateVerificationToken shaBytes ticket.token_id now randomBytes16
          let newExpiry := now + 30000
          let db' := { db with
            tickets := updateFirst (fun t => t.id == ticketId)
              (fun t => { t with
                current_verification_token := some newToken
                token_expires_at := some newExpiry
                last_token_generation := now }) db.tickets }
          .ok ({ verificationToken := newToken
                 expiresAt := newExpiry
                 ticketId := ticket.id
                 tokenId := ticket.token_id
                 eventId := ticket.event_id
                 timeRemaining := 30 }, db')
      | none =>
        let newToken := generateVerificationToken shaBytes ticket.token_id now randomBytes16
        let newExpiry := now + 30000
        let db' := { db with
          tickets := updateFirst (fun t => t.id == ticketId)
            (fun t => { t with
              current_verification_token := some newToken
              token_expires_at := some newExpiry
              last_token_generation := now }) db.tickets }
        .ok ({ verificationToken := newToken
               expiresAt := newExpiry
               ticketId := ticket.id
               tokenId := ticket.token_id
               eventId := ticket.event_id
               timeRemaining := 30 }, db')

/-- `logVerificationAttempt`: append one row to `qr_verifications`. -/
def logVerificationAttempt (db : DB) (ticketId : Option Nat) (token : String)
    (result : String) (scannerInfo : ScannerInfo) (now : Nat) : DB :=
  { db with verifications := db.verifications ++
      [{ id := db.verifications.length + 1
         ticket_id := ticketId
         verification_token := token
         scanned_by := scannerInfo.scannerAddress
         scan_timestamp := now
         scan_result := result
         scan_location := scannerInfo.location
         ip_address := scannerInfo.ipAddress }] }

/-- `logFraudAttempt`: append one row to `fraud_alerts`. -/
def logFraudAttempt (db : DB) (ticketId : Option Nat) (alertType : String)
    (description : String) (now : Nat) : DB :=
  { db with fraud_alerts := db.fraud_alerts ++
      [{ id := db.fraud_alerts.length + 1
         ticket_id := ticketId
         alert_type := alertType
         description := description
         created_at := now }] }

/-- The trailing-window filter of `checkForFraud`: attempts carrying the
same token whose timestamp is strictly later than five minutes before
`now`.  The comparison is done over `Int` because the JavaScript
`Date.now() - 5 * 60 * 1000` may be negative near the epoch. -/
def recentAttempts (db : DB) (token : String) (now : Nat) : List Verification :=
  db.verifications.filter (fun v =>
    v.verification_token == token &&
    decide ((v.scan_timestamp : Int) > (now : Int) - 5 * 60 * 1000))

/-- `checkForFraud` (fraud pattern evaluation): raise one
`suspicious_activity` alert when more than three attempts with this token
fall inside the trailing five-minute window. -/
def checkForFraud (db : DB) (ticketId : Option Nat) (token : String) (now : Nat) : DB :=
  let recent := recentAttempts db token now
  if recent.length > 3 then
    logFraudAttempt db ticketId "suspicious_activity"
      ("Multiple scan attempts (" ++ Nat.repr recent.length
        ++ ") with same token in 5 minutes") now
  else
    db

/-- Response object of `verifyQRCode`; the `ticket` field is populated only
for a `valid` result (the event-name enrichment the source performs on the
returned copy is never persisted and is omitted). -/
structure VerifyOut where
  result : String
  message : String
  ticket : Option Ticket
  timestamp : Nat
  deriving Repr, DecidableEq

/-- `verifyQRCode` (token verification).  Resolves the ticket currently
holding the submitted token value; classifies the call as
`invalid` / `already_used` / `expired` / `valid`; marks the ticket used on
the `valid` path only; logs exactly one verification attempt; runs
`checkForFraud` on the unresolvable-token path and logs a direct
`expired_token` fraud alert on the expired path. -/
def verifyQRCode (db : DB) (verificationToken : String)
    (scannerInfo : ScannerInfo) (now : Nat) : VerifyOut × DB :=
  match db.tickets.find? (fun t => t.current_verification_token == some verificationToken) with
  | none =>
    let db1 := logVerificationAttempt db none verificationToken "invalid" scannerInfo now
    let db2 := checkForFraud db1 none verificationToken now
    ({ result := "invalid"
       message := "Invalid ticket - possible fraud"
       ticket := none
       timestamp := now }, db2)
  | some ticket =>
    if ticket.is_used then
      let db1 := logVerificationAttempt db (some ticket.id) verificationToken
        "already_used" scannerInfo now
      ({ result := "already_used"
         message := "Ticket already used"
         ticket := none
         timestamp := now }, db1)
    else if now > expiryMs ticket then
      let dbA := logFraudAttempt db (some ticket.id) "expired_token"
        "Attempted scan with expired token" now
      let db1 := logVerificationAttempt dbA (some ticket.id) verificationToken
        "expired" scannerInfo now
      ({ result := "expired"
         message := "QR code expired - ask owner to refresh (security feature)"
         ticket := none
         timestamp := now }, db1)
    else
      let event? := db.events.find? (fun e => e.id == ticket.event_id)
      let dbT := { db with
        tickets := updateFirst (fun t => t.id == ticket.id)
          (fun t => { t with is_used := true, used_timestamp := some now }) db.tickets }
      let db1 := logVerificationAttempt dbT (some ticket.id) verificationToken
        "valid" scannerInfo now
      ({ result := "valid"
         message := "Valid ticket for " ++ (match event? with
           | some e => e.name
           | none => "undefined")
         ticket := some ticket
         timestamp := now }, db1)

/-- `confirmTransfer`: confirm a pending transfer addressed to
`recipientAddress`; in the same ticket update the owner changes and the
verification-token and expiry fields are nulled. -/
def confirmTransfer (db : DB) (transferId : String) (recipientAddress : String)
    (now : Nat) : Except String DB :=
  match db.transfers.find? (fun t =>
      t.transfer_id == transferId && t.to_address == recipientAddress) with
  | none => .error "Invalid or expired transfer"
  | some transfer =>
    if transfer.status ≠ "pending" then
      .error "Invalid or expired transfer"
    else
      let dbT := { db with
        tickets := updateFirst (fun t => t.id == transfer.ticket_id)
          (fun t => { t with
            owner_address := recipientAddress
            current_verification_token := none
            token_expires_at := none }) db.tickets }
      .ok { dbT with
        transfers := updateFirst
          (fun t => t.transfer_id == transferId && t.to_address == recipientAddress)
          (fun t => { t with status := "confirmed", confirmed_at := some now })
          dbT.transfers }

end JSONDatabase

/-! ## The SQLite engine (class `FairPassDB`, `src/backend/database/db.js`) -/

namespace FairPassDB

/-- A row of the SQLite `tickets` table (the columns the engine touches). -/
structure Ticket where
  id : Nat
  token_id : Nat
  event_id : Nat
  owner_address : String
  is_used : Bool
  used_timestamp : Option Nat
  current_verification_token : Option String
  token_expires_at : Option Nat
  deriving Repr, DecidableEq

/-- The slice of an `events` row the verification query joins against. -/
structure Event where
  id : Nat
  name : String
  deriving Repr, DecidableEq

/-- A row of `qr_verifications` (`logVerification`). -/
structure Verification where
  ticket_id : Nat
  verification_token : String
  scanned_by : Option String
  scan_timestamp : Nat
  scan_result : String
  deriving Repr, DecidableEq

/-- A row of `fraud_alerts`. -/
structure FraudAlert where
  ticket_id : Nat
  alert_type : String
  description : String
  created_at : Nat
  deriving Repr, DecidableEq

/-- The SQLite tables touched by the QR engine. -/
structure DB where
  tickets : List Ticket
  events : List Event
  verifications : List Verification
  fraud_alerts : List FraudAlert
  deriving Repr, DecidableEq

/-- Millisecond value of `new Date(ticket.token_expires_at)` (`null` is the
epoch). -/
def expiryMs (t : Ticket) : Nat :=
  t.token_expires_at.getD 0

/-- The ticket resolved by the `verifyQRCode` query: its
`current_verification_token` equals the submitted value, and the `JOIN`
with `events` requires the event row to exist. -/
def resolveTicket (db : DB) (verificationToken : String) : Option Ticket :=
  db.tickets.find? (fun t =>
    t.current_verification_token == some verificationToken &&
    db.events.any (fun e => e.id == t.event_id))

/-- `generateSecureQRData` of the SQLite variant: same issuance logic as the
JSON variant (`Unauthorized` check, idempotent unexpired branch, fresh
30-second token otherwise); its return object carries no remaining-seconds
field. -/
def generateSecureQRData (shaBytes : String → List Nat) (db : DB)
    (ticketId : Nat) (ownerAddress : String) (now : Nat)
    (randomBytes16 : List Nat) : Except String (String × Nat × DB) :=
  match db.tickets.find? (fun t => t.id == ticketId) with
  | none => .error "Unauthorized: Not ticket owner"
  | some ticket =>
    if ticket.owner_address ≠ ownerAddress then
      .error "Unauthorized: Not ticket owner"
    else
      let tokenExpiry := expiryMs ticket
      match ticket.current_verification_token with
      | some tok =>
        if now < tokenExpiry then
          .ok (tok, tokenExpiry, db)
        else
          let newToken := JSONDatabase.generateVerificationToken shaBytes
            ticket.token_id now randomBytes16
          let newExpiry := now + 30000
          let db' := { db with
            tickets := updateFirst (fun t => t.id == ticketId)
              (fun t => { t with
                current_verification_token := some newToken
                token_expires_at := some newExpiry }) db.tickets }
          .ok (newToken, newExpiry, db')
      | none =>
        let newToken := JSONDatabase.generateVerificationToken shaBytes
          ticket.token_id now randomBytes16
        let newExpiry := now + 30000
        let db' := { db with
          tickets := updateFirst (fun t => t.id == ticketId)
            (fun t => { t with
              current_verification_token := some newToken
              token_expires_at := some newExpiry }) db.tickets }
        .ok (newToken, newExpiry, db')

/-- `createTicket` of the SQLite variant: insert a ticket holding a fresh
token with a one-minute (`Date.now() + 60000`) expiry. -/
def createTicket (shaBytes : String → List Nat) (db : DB) (tokenId eventId : Nat)
    (ownerAddress : String) (now : Nat) (randomBytes16 : List Nat) : DB :=
  let verificationToken := JSONDatabase.generateVerificationToken shaBytes
    tokenId now randomBytes16
  { db with tickets := db.tickets ++
      [{ id := db.tickets.length + 1
         token_id := tokenId
         event_id := eventId
         owner_address := ownerAddress
         is_used := false
         used_timestamp := none
         current_verification_token := some verificationToken
         token_expires_at := some (now + 60000) }] }

/-- `logVerification`: silently skips the insert when no ticket id was
resolved (`if (!ticketId) return`), so unresolvable tokens leave no audit
record in this variant. -/
def logVerification (db : DB) (ticketId : Option Nat) (token : String)
    (result : String) (scannedBy : Option String) (now : Nat) : DB :=
  match ticketId with
  | none => db
  | some tid =>
    { db with verifications := db.verifications ++
        [{ ticket_id := tid
           verification_token := token
           scanned_by := scannedBy
           scan_timestamp := now
           scan_result := result }] }

/-- `checkForFraud` of the SQLite variant: returns immediately when the
ticket id is missing; otherwise counts attempts with the same token in the
trailing five minutes and inserts one `suspicious_activity` alert when the
count exceeds three. -/
def checkForFraud (db : DB) (ticketId : Option Nat) (token : String) (now : Nat) : DB :=
  match ticketId with
  | none => db
  | some tid =>
    let cnt := (db.verifications.filter (fun v =>
      v.verification_token == token &&
      decide ((v.scan_timestamp : Int) > (now : Int) - 5 * 60 * 1000))).length
    if cnt > 3 then
      { db with fraud_alerts := db.fraud_alerts ++
          [{ ticket_id := tid
             alert_type := "suspicious_activity"
             description := "Multiple scan attempts with same token"
             created_at := now }] }
    else
      db

/-- `verifyQRCode` of the SQLite variant: same outcome classification as the
JSON variant, but the attempt log is skipped for unresolvable tokens and
`checkForFraud` runs only after an `invalid` or `expired` result. -/
def verifyQRCode (db : DB) (verificationToken : String)
    (scannedBy : Option String) (now : Nat) : (String × Option Ticket) × DB :=
  let ticket? := resolveTicket db verificationToken
  let step1 : String × Option Ticket × DB :=
    match ticket? with
    | none => ("invalid", none, db)
    | some ticket =>
      if ticket.is_used then
        ("already_used", some ticket, db)
      else if now > expiryMs ticket then
        ("expired", some ticket, db)
      else
        ("valid", some ticket, { db with
          tickets := updateFirst (fun t => t.id == ticket.id)
            (fun t => { t with is_used := true, used_timestamp := some now }) db.tickets })
  let result := step1.1
  let foundTicket := step1.2.1
  let dbV := step1.2.2
  let dbL := logVerification dbV (foundTicket.map (fun t => t.id))
    verificationToken result scannedBy now
  let dbF :=
    if result == "invalid" || result == "expired" then
      checkForFraud dbL (foundTicket.map (fun t => t.id)) verificationToken now
    else
      dbL
  ((result, if result == "valid" then foundTicket else none), dbF)

end FairPassDB

/-! ## The MongoDB engine (class `FairPassMongoDB`,
`src/backend/database/mongodb.js`) -/

namespace FairPassMongoDB

/-- The fields of a `tickets` document the QR engine touches.  Document ids
are modelled as strings (hex `ObjectId`s). -/
structure MTicket where
  oid : String
  tokenId : Nat
  eventId : String
  ownerAddress : String
  isUsed : Bool
  deriving Repr, DecidableEq

/-- A `qrverifications` document inserted by `generateSecureQR`: in this
variant every issuance inserts a new token document (tokens are not stored
on the ticket). -/
structure QRRecord where
  oid : Nat
  verificationToken : String
  ticketId : String
  tokenId : Nat
  eventId : String
  ownerAddress : String
  expiresAt : Nat
  isUsed : Bool
  qrType : String
  generatedAt : Nat
  deriving Repr, DecidableEq

/-- A `fraudalerts` document inserted by `logFraudAttempt`. -/
structure MFraudAlert where
  oid : Nat
  verificationToken : String
  reason : String
  timestamp : Nat
  deriving Repr, DecidableEq

/-- The MongoDB collections touched by the QR engine. -/
structure MDB where
  tickets : List MTicket
  qrverifications : List QRRecord
  fraudalerts : List MFraudAlert
  deriving Repr, DecidableEq

/-- The 62-character alphabet of `generateSecureToken`. -/
def tokenChars : List Char :=
  "ABCDEFGHIJKLMNOPQRSTUVWXYZabcdefghijklmnopqrstuvwxyz0123456789".data

/-- `generateSecureToken`: 32 characters picked from `tokenChars` by
successive `Math.floor(Math.random() * chars.length)` draws.  The draws are
the explicit argument; the function takes neither a ticket identifier, nor
a timestamp, nor a cryptographic hash. -/
def generateSecureToken (draws : Nat → Nat) : String :=
  ⟨(List.range 32).map (fun i => tokenChars.getD (draws i) 'A')⟩

/-- Result object of `generateSecureQR` (venue-independent fields). -/
structure MGenOut where
  verificationToken : String
  ticketId : String
  tokenId : Nat
  expiresAt : Nat
  timeRemaining : Nat
  qrType : String
  deriving Repr, DecidableEq

/-- `generateSecureQR` with `venueMode = false` (no caller location): checks
ownership and the used flag, then always inserts a brand-new token document
expiring 30 seconds after `now`.  The venue-aware branch widens the window
using floating-point great-circle distances and is outside this embedding.
Thrown errors surface with the `QR generation failed:` prefix added by the
outer catch block. -/
def generateSecureQR (db : MDB) (ticketId ownerAddress : String) (now : Nat)
    (draws : Nat → Nat) : Except String (MGenOut × MDB) :=
  match db.tickets.find? (fun t => t.oid == ticketId && t.ownerAddress == ownerAddress) with
  | none => .error "QR generation failed: Ticket not found or you do not own this ticket"
  | some ticket =>
    if ticket.isUsed then
      .error "QR generation failed: Ticket has already been used"
    else
      let expirySeconds := 30
      let verificationToken := generateSecureToken draws
      let expiresAt := now + expirySeconds * 1000
      let qrData : QRRecord :=
        { oid := db.qrverifications.length + 1
          verificationToken := verificationToken
          ticketId := ticketId
          tokenId := ticket.tokenId
          eventId := ticket.eventId
          ownerAddress := ownerAddress
          expiresAt := expiresAt
          isUsed := false
          qrType := "standard"
          generatedAt := now }
      .ok ({ verificationToken := verificationToken
             ticketId := ticketId
             tokenId := ticket.tokenId
             expiresAt := expiresAt
             timeRemaining := expirySeconds
             qrType := "standard" },
           { db with qrverifications := db.qrverifications ++ [qrData] })

/-- `logFraudAttempt` of the Mongo variant: insert one `fraudalerts`
document. -/
def logFraudAttempt (db : MDB) (verificationToken : String) (reason : String)
    (now : Nat) : MDB :=
  { db with fraudalerts := db.fraudalerts ++
      [{ oid := db.fraudalerts.length + 1
         verificationToken := verificationToken
         reason := reason
         timestamp := now }] }

/-- A ticket currently holds the submitted token value in the Mongo data
model: some `qrverifications` document carries that exact token. -/
def holdsToken (db : MDB) (verificationToken : String) : Bool :=
  db.qrverifications.any (fun q => q.verificationToken == verificationToken)

/-- `verifyQRCode` of the Mongo variant: looks the token up with the filter
`expiresAt > now && isUsed == false`, so unresolvable, expired and
already-used tokens all collapse into one `invalid` result; a resolvable
token whose ticket document is missing yields a fifth `error` result;
otherwise the QR document and the ticket are marked used and the result is
`valid`. -/
def verifyQRCode (db : MDB) (verificationToken : String) (now : Nat) :
    (Bool × String × String) × MDB :=
  match db.qrverifications.find? (fun q =>
      q.verificationToken == verificationToken &&
      decide (q.expiresAt > now) && q.isUsed == false) with
  | none =>
    ((false, "invalid", "QR code is invalid, expired, or already used"),
     logFraudAttempt db verificationToken "invalid_or_expired_token" now)
  | some qrRecord =>
    match db.tickets.find? (fun t => t.oid == qrRecord.ticketId) with
    | none => ((false, "error", "Ticket not found"), db)
    | some _ =>
      let dbQ := { db with
        qrverifications := updateFirst (fun q => q.oid == qrRecord.oid)
          (fun q => { q with isUsed := true }) db.qrverifications }
      let dbT := { dbQ with
        tickets := updateFirst (fun t => t.oid == qrRecord.ticketId)
          (fun t => { t with isUsed := true }) dbQ.tickets }
      ((true, "valid", "Ticket verified successfully"), dbT)

end FairPassMongoDB

/-! ## Trace semantics of the JSON engine -/

namespace JSONDatabase

/-- Engine operations quantified over by the lifetime invariants: token
issuance, token verification and standalone fraud-pattern evaluation.
Environment inputs (current time, fresh randomness) travel inside the
operation. -/
inductive Op where
  | issue (ticketId : Nat) (ownerAddress : String) (now : Nat) (randomBytes16 : List Nat)
  | verify (token : String) (scannerInfo : ScannerInfo) (now : Nat)
  | fraudCheck (ticketId : Option Nat) (token : String) (now : Nat)
  deriving Repr

/-- State transition of one engine operation.  A failed issuance (a thrown
error) leaves the database untouched. -/
def step (shaBytes : String → List Nat) (db : DB) : Op → DB
  | .issue tid owner now rnd =>
    match generateSecureQRData shaBytes db tid owner now rnd with
    | .ok (_, db') => db'
    | .error _ => db
  | .verify tok sc now => (verifyQRCode db tok sc now).2
  | .fraudCheck tid tok now => checkForFraud db tid tok now

/-- Run a sequence of engine operations. -/
def run (shaBytes : String → List Nat) (db : DB) : List Op → DB
  | [] => db
  | op :: ops => run shaBytes (step shaBytes db op) ops

/-- The first ticket row carrying a given id. -/
def getById (db : DB) (tid : Nat) : Option Ticket :=
  db.tickets.find? (fun t => t.id == tid)

/-- The ticket with id `tid` is marked used. -/
def usedAt (db : DB) (tid : Nat) : Prop :=
  ∃ t, getById db tid = some t ∧ t.is_used = true

/-- The operation is a verification whose outcome is `valid` and whose
resolved ticket has id `tid`. -/
def validates (db : DB) (op : Op) (tid : Nat) : Bool :=
  match op with
  | .verify tok sc now =>
    let out := (verifyQRCode db tok sc now).1
    out.result == "valid" && out.ticket.map (fun t => t.id) == some tid
  | _ => false

/-- Number of `Valid` verification outcomes for ticket `tid` along a trace. -/
def countValids (shaBytes : String → List Nat) (db : DB) (tid : Nat) : List Op → Nat
  | [] => 0
  | op :: ops =>
    (if validates db op tid then 1 else 0)
      + countValids shaBytes (step shaBytes db op) tid ops

theorem tickets_logVerificationAttempt (db : DB) (tid : Option Nat) (tok r : String)
    (sc : ScannerInfo) (now : Nat) :
    (logVerificationAttempt db tid tok r sc now).tickets = db.tickets := rfl

theorem tickets_logFraudAttempt (db : DB) (tid : Option Nat) (a d : String) (now : Nat) :
    (logFraudAttempt db tid a d now).tickets = db.tickets := rfl

theorem tickets_checkForFraud (db : DB) (tid : Option Nat) (tok : String) (now : Nat) :
    (checkForFraud db tid tok now).tickets = db.tickets := by
  simp only [checkForFraud]
  split <;> rfl

theorem verifications_logFraudAttempt (db : DB) (tid : Option Nat) (a d : String) (now : Nat) :
    (logFraudAttempt db tid a d now).verifications = db.verifications := rfl

theorem verifications_checkForFraud (db : DB) (tid : Option Nat) (tok : String) (now : Nat) :
    (checkForFraud db tid tok now).verifications = db.verifications := by
  simp only [checkForFraud]
  split <;> rfl

theorem fraud_alerts_logVerificationAttempt (db : DB) (tid : Option Nat) (tok r : String)
    (sc : ScannerInfo) (now : Nat) :
    (logVerificationAttempt db tid tok r sc now).fraud_alerts = db.fraud_alerts := rfl

/-- Evolution of a single ticket row across one engine operation: the id is
stable and the used flag can only go from false to true. -/
def TickStep (t t' : Ticket) : Prop :=
  t'.id = t.id ∧ (t.is_used = true → t'.is_used = true)

theorem tickStep_refl (t : Ticket) : TickStep t t := ⟨rfl, fun h => h⟩

theorem generateSecureQRData_forall₂ (shaBytes : String → List Nat) (db : DB)
    (ticketId : Nat) (owner : String) (now : Nat) (rnd : List Nat) (out : QRData) (db' : DB)
    (h : generateSecureQRData shaBytes db ticketId owner now rnd = .ok (out, db')) :
    List.Forall₂ TickStep db.tickets db'.tickets := by
  have hrefl := tickStep_refl
  revert h
  simp only [generateSecureQRData]
  split
  · intro h; exact absurd h (by simp)
  · split
    · intro h; exact absurd h (by simp)
    · split
      · split
        · intro h
          simp only [Except.ok.injEq, Prod.mk.injEq] at h
          rw [← h.2]
          exact forall₂_self_of_refl _ hrefl _
        · intro h
          simp only [Except.ok.injEq, Prod.mk.injEq] at h
          rw [← h.2]
          dsimp only
          apply updateFirst_rel _ _ _ hrefl
          intro t
          exact ⟨rfl, fun h => h⟩
      · intro h
        simp only [Except.ok.injEq, Prod.mk.injEq] at h
        rw [← h.2]
        dsimp only
        apply updateFirst_rel _ _ _ hrefl
        intro t
        exact ⟨rfl, fun h => h⟩

theorem verifyQRCode_forall₂ (db : DB) (tok : String) (sc : ScannerInfo) (now : Nat) :
    List.Forall₂ TickStep db.tickets (verifyQRCode db tok sc now).2.tickets := by
  have hrefl := tickStep_refl
  simp only [verifyQRCode]
  split
  · simp only [tickets_checkForFraud, tickets_logVerificationAttempt]
    exact forall₂_self_of_refl _ hrefl _
  · split
    · simp only [tickets_logVerificationAttempt]
      exact forall₂_self_of_refl _ hrefl _
    · split
      · simp only [tickets_logVerificationAttempt, tickets_logFraudAttempt]
        exact forall₂_self_of_refl _ hrefl _
      · simp only [tickets_logVerificationAttempt]
        apply updateFirst_rel _ _ _ hrefl
        intro t
        exact ⟨rfl, fun _ => rfl⟩

theorem step_forall₂ (shaBytes : String → List Nat) (db : DB) (op : Op) :
    List.Forall₂ TickStep db.tickets (step shaBytes db op).tickets := by
  have hrefl := tickStep_refl
  cases op with
  | issue tid owner now rnd =>
    simp only [step]
    rcases hg : generateSecureQRData shaBytes db tid owner now rnd with e | ⟨out, db'⟩
    · exact forall₂_self_of_refl _ hrefl _
    · exact generateSecureQRData_forall₂ shaBytes db tid owner now rnd out db' hg
  | verify tok sc now =>
    simp only [step]
    exact verifyQRCode_forall₂ db tok sc now
  | fraudCheck tid tok now =>
    simp only [step, tickets_checkForFraud]
    exact forall₂_self_of_refl _ hrefl _

theorem find?_id_forall₂ {l l' : List Ticket} (h : List.Forall₂ TickStep l l') (tid : Nat) :
    ∀ t, l.find? (fun t => t.id == tid) = some t →
      ∃ t', l'.find? (fun t => t.id == tid) = some t' ∧ TickStep t t' := by
  induction h with
  | nil => intro t ht; simp at ht
  | cons hR hrest ih =>
    intro t ht
    rename_i a b l₁ l₂
    by_cases hid : (a.id == tid) = true
    · have ha : List.find? (fun t => t.id == tid) (a :: l₁) = some a :=
        List.find?_cons_of_pos _ hid
      rw [ha] at ht
      cases ht
      have hb : (b.id == tid) = true := by
        simp only [beq_iff_eq] at hid ⊢
        rw [hR.1, hid]
      exact ⟨b, List.find?_cons_of_pos _ hb, hR⟩
    · have ha : List.find? (fun t => t.id == tid) (a :: l₁) =
        List.find? (fun t => t.id == tid) l₁ := List.find?_cons_of_neg _ hid
      rw [ha] at ht
      obtain ⟨t', ht', hRt⟩ := ih t ht
      have hb : ¬((b.id == tid) = true) := by
        simp only [beq_iff_eq] at hid ⊢
        rw [hR.1]
        exact hid
      refine ⟨t', ?_, hRt⟩
      have hcons : List.find? (fun t => t.id == tid) (b :: l₂) =
          List.find? (fun t => t.id == tid) l₂ := List.find?_cons_of_neg _ hb
      rw [hcons, ht']

theorem usedAt_step (shaBytes : String → List Nat) (db : DB) (op : Op) (tid : Nat)
    (h : usedAt db tid) : usedAt (step shaBytes db op) tid := by
  obtain ⟨t, ht, hu⟩ := h
  obtain ⟨t', ht', hR⟩ := find?_id_forall₂ (step_forall₂ shaBytes db op) tid t ht
  exact ⟨t', ht', hR.2 hu⟩

theorem usedAt_run (shaBytes : String → List Nat) (db : DB) (ops : List Op) (tid : Nat)
    (h : usedAt db tid) : usedAt (run shaBytes db ops) tid := by
  induction ops generalizing db with
  | nil => exact h
  | cons op ops ih => exact ih _ (usedAt_step shaBytes db op tid h)

theorem ids_eq_of_forall₂ {l l2 : List Ticket} (h : List.Forall₂ TickStep l l2) :
    l2.map (fun t => t.id) = l.map (fun t => t.id) := by
  induction h with
  | nil => rfl
  | cons hR _ ih => simp only [List.map_cons, ih, hR.1]

/-- Engine operations never add, remove or renumber ticket rows. -/
theorem ids_step (shaBytes : String → List Nat) (db : DB) (op : Op) :
    (step shaBytes db op).tickets.map (fun t => t.id) = db.tickets.map (fun t => t.id) :=
  ids_eq_of_forall₂ (step_forall₂ shaBytes db op)

/-- On the `valid` path, the verification marks the resolved ticket id as
used in the post-state. -/
theorem valid_marks_used (db : DB) (tok : String) (sc : ScannerInfo) (now : Nat)
    (t : Ticket)
    (hres : (verifyQRCode db tok sc now).1.result = "valid")
    (htk : (verifyQRCode db tok sc now).1.ticket = some t) :
    usedAt (verifyQRCode db tok sc now).2 t.id := by
  revert hres htk
  simp only [verifyQRCode]
  split
  · intro hres _; simp at hres
  · rename_i ticket hfind
    split
    · intro hres _; simp at hres
    · split
      · intro hres _; simp at hres
      · intro _ htk
        simp only [Option.some.injEq] at htk
        subst htk
        have hmem := List.mem_of_find?_eq_some hfind
        have hp : (fun x => x.id == ticket.id) ticket = true := by simp
        have hsome : (db.tickets.find? (fun x => x.id == ticket.id)).isSome := by
          rw [List.find?_isSome]
          exact ⟨ticket, hmem, hp⟩
        obtain ⟨u, hu⟩ := Option.isSome_iff_exists.mp hsome
        have hupd := find?_updateFirst (fun x => x.id == ticket.id)
          (fun x => { x with is_used := true, used_timestamp := some now })
          (fun x => rfl) db.tickets
        refine ⟨{ u with is_used := true, used_timestamp := some now }, ?_, rfl⟩
        show (logVerificationAttempt _ _ _ _ _ _).tickets.find? _ = _
        rw [tickets_logVerificationAttempt]
        show (updateFirst _ _ db.tickets).find? (fun x => x.id == ticket.id) = _
        rw [hupd, hu]
        rfl

/-- A verification can classify as `valid` only when the resolved ticket is
unused; with distinct ticket ids this contradicts `usedAt`. -/
theorem validates_false_of_used (db : DB) (op : Op) (tid : Nat)
    (hnodup : (db.tickets.map (fun t => t.id)).Nodup)
    (hused : usedAt db tid) : validates db op tid = false := by
  cases op with
  | issue _ _ _ _ => rfl
  | fraudCheck _ _ _ => rfl
  | verify tok sc now =>
    obtain ⟨u, hu, huu⟩ := hused
    have hu2 : db.tickets.find? (fun x => x.id == tid) = some u := hu
    by_contra hval
    rw [Bool.not_eq_false] at hval
    revert hval
    simp only [validates, Bool.and_eq_true, beq_iff_eq]
    intro hval
    obtain ⟨hres, htk⟩ := hval
    revert hres htk
    simp only [verifyQRCode]
    split
    · intro hres _; simp at hres
    · rename_i ticket hfind
      by_cases husedt : ticket.is_used = true
      · rw [if_pos husedt]
        intro hres _; simp at hres
      · rw [if_neg husedt]
        by_cases hexp : now > expiryMs ticket
        · rw [if_pos hexp]
          intro hres _; simp at hres
        · rw [if_neg hexp]
          intro _ htk
          have htid : ticket.id = tid := by
            simpa using htk
          have hmemt := List.mem_of_find?_eq_some hfind
          have hmemu := List.mem_of_find?_eq_some hu2
          have hut := List.find?_some hu2
          have hequ : ticket = u := by
            apply List.inj_on_of_nodup_map hnodup hmemt hmemu
            simp only [beq_iff_eq] at hut
            rw [htid, hut]
          rw [hequ] at husedt
          exact husedt huu

/-- One-step preservation plus `valid` marking give the global bound: along
any trace, a ticket id whose rows carry distinct ids collects at most one
`Valid` outcome, and none at all once it is used. -/
theorem countValids_le_one (shaBytes : String → List Nat) (db : DB) (tid : Nat)
    (ops : List Op) (hnodup : (db.tickets.map (fun t => t.id)).Nodup) :
    countValids shaBytes db tid ops ≤ 1
      ∧ (usedAt db tid → countValids shaBytes db tid ops = 0) := by
  induction ops generalizing db with
  | nil => exact ⟨Nat.zero_le 1, fun _ => rfl⟩
  | cons op ops ih =>
    have hnodup2 : ((step shaBytes db op).tickets.map (fun t => t.id)).Nodup := by
      rw [ids_step]
      exact hnodup
    obtain ⟨ihle, ihzero⟩ := ih (step shaBytes db op) hnodup2
    have hcons : countValids shaBytes db tid (op :: ops)
        = (if validates db op tid then 1 else 0)
          + countValids shaBytes (step shaBytes db op) tid ops := rfl
    by_cases hv : validates db op tid = true
    · have husednext : usedAt (step shaBytes db op) tid := by
        cases op with
        | issue a b c d => exact Bool.noConfusion (hv : false = true)
        | fraudCheck a b c => exact Bool.noConfusion (hv : false = true)
        | verify tok sc now =>
          simp only [validates, Bool.and_eq_true, beq_iff_eq] at hv
          obtain ⟨hres, htk⟩ := hv
          rcases hmt : (verifyQRCode db tok sc now).1.ticket with _ | t
          · rw [hmt] at htk; simp at htk
          · rw [hmt] at htk
            simp at htk
            have hmk := valid_marks_used db tok sc now t hres hmt
            rw [htk] at hmk
            exact hmk
      have htail := ihzero husednext
      constructor
      · rw [hcons, hv, if_pos rfl, htail]
      · intro husednow
        have hcontra := validates_false_of_used db op tid hnodup husednow
        rw [hv] at hcontra
        exact Bool.noConfusion hcontra
    · rw [Bool.not_eq_true] at hv
      constructor
      · rw [hcons, hv, if_neg (by simp)]
        omega
      · intro husednow
        rw [hcons, hv, if_neg (by simp)]
        have htail := ihzero (usedAt_step shaBytes db op tid husednow)
        omega

/-- Whether an operation is a verification whose outcome is `valid`. -/
def isValidVerify (db : DB) : Op → Bool
  | .verify tok sc now => (verifyQRCode db tok sc now).1.result == "valid"
  | .issue _ _ _ _ => false
  | .fraudCheck _ _ _ => false

theorem usedMap_generateSecureQRData (shaBytes : String → List Nat) (db : DB)
    (ticketId : Nat) (owner : String) (now : Nat) (rnd : List Nat) (out : QRData) (db2 : DB)
    (h : generateSecureQRData shaBytes db ticketId owner now rnd = .ok (out, db2)) :
    db2.tickets.map (fun t => t.is_used) = db.tickets.map (fun t => t.is_used) := by
  revert h
  simp only [generateSecureQRData]
  split
  · intro h; exact absurd h (by simp)
  · split
    · intro h; exact absurd h (by simp)
    · split
      · split
        · intro h
          simp only [Except.ok.injEq, Prod.mk.injEq] at h
          rw [← h.2]
        · intro h
          simp only [Except.ok.injEq, Prod.mk.injEq] at h
          rw [← h.2]
          show (updateFirst _ _ db.tickets).map (fun t => t.is_used) = _
          apply updateFirst_map_invariant
          intro x
          rfl
      · intro h
        simp only [Except.ok.injEq, Prod.mk.injEq] at h
        rw [← h.2]
        show (updateFirst _ _ db.tickets).map (fun t => t.is_used) = _
        apply updateFirst_map_invariant
        intro x
        rfl

/-- Operations other than a `valid`-classifying verification leave every
used flag exactly as it was. -/
theorem usedMap_step_of_not_valid (shaBytes : String → List Nat) (db : DB) (op : Op)
    (h : isValidVerify db op = false) :
    (step shaBytes db op).tickets.map (fun t => t.is_used)
      = db.tickets.map (fun t => t.is_used) := by
  cases op with
  | issue tid owner now rnd =>
    simp only [step]
    rcases hg : generateSecureQRData shaBytes db tid owner now rnd with e | ⟨out, db2⟩
    · rfl
    · exact usedMap_generateSecureQRData shaBytes db tid owner now rnd out db2 hg
  | verify tok sc now =>
    revert h
    simp only [step, isValidVerify, verifyQRCode]
    split
    · intro _
      simp only [tickets_checkForFraud, tickets_logVerificationAttempt]
    · rename_i ticket hfind
      by_cases husedt : ticket.is_used = true
      · rw [if_pos husedt]
        intro _
        rw [tickets_logVerificationAttempt]
      · rw [if_neg husedt]
        by_cases hexp : now > expiryMs ticket
        · rw [if_pos hexp]
          intro _
          simp only [tickets_logVerificationAttempt, tickets_logFraudAttempt]
        · rw [if_neg hexp]
          intro h
          exact absurd h (by simp)
  | fraudCheck a b c =>
    simp only [step, tickets_checkForFraud]

/-- The four outcome classes named by the specification. -/
inductive Outcome where
  | notFound
  | alreadyUsed
  | expired
  | valid
  deriving Repr, DecidableEq

/-- Modelled from the spec side of claim C2, following its words: the
outcome is NotFound when no ticket currently holds the exact token value;
otherwise AlreadyUsed when the resolved ticket has its used flag set;
otherwise Expired when the current time exceeds the stored expiry;
otherwise Valid. -/
def specOutcome (db : DB) (token : String) (now : Nat) : Outcome :=
  match db.tickets.find? (fun t => t.current_verification_token == some token) with
  | none => .notFound
  | some t =>
    if t.is_used then .alreadyUsed
    else if now > expiryMs t then .expired
    else .valid

/-- Mapping of the result strings produced by the JSON engine onto the
outcome classes of the specification. -/
def outcomeOfResult : String → Option Outcome
  | "invalid" => some .notFound
  | "already_used" => some .alreadyUsed
  | "expired" => some .expired
  | "valid" => some .valid
  | _ => none

end JSONDatabase

/-! ## Claim theorems -/

/-- C1: over any sequence of engine operations (token issuance, token
verification, fraud evaluation) on a database whose ticket rows carry
distinct ids, at most one verification ever returns `valid` for a given
ticket id; the used flag is monotone (set once, never cleared by any engine
operation); and any operation that is not a `valid`-classifying
verification leaves every used flag unchanged, so the `valid` branch is the
only place the flag is set. -/
theorem claim_C1_at_most_one_valid (shaBytes : String → List Nat)
    (db : JSONDatabase.DB) (ops : List JSONDatabase.Op) (op : JSONDatabase.Op) (tid : Nat)
    (hnodup : (db.tickets.map (fun t => t.id)).Nodup) :
    JSONDatabase.countValids shaBytes db tid ops ≤ 1
      ∧ (JSONDatabase.usedAt db tid →
          JSONDatabase.usedAt (JSONDatabase.run shaBytes db ops) tid)
      ∧ (JSONDatabase.isValidVerify db op = false →
          (JSONDatabase.step shaBytes db op).tickets.map (fun t => t.is_used)
            = db.tickets.map (fun t => t.is_used)) :=
  ⟨(JSONDatabase.countValids_le_one shaBytes db tid ops hnodup).1,
    fun h => JSONDatabase.usedAt_run shaBytes db ops tid h,
    fun h => JSONDatabase.usedMap_step_of_not_valid shaBytes db op h⟩

/-- A sample hash-byte supply used to instantiate witnesses. -/
def sampleSha : String → List Nat := fun _ => List.replicate 32 0

/-- A concrete one-ticket database exercising claim C1. -/
def c1db : JSONDatabase.DB :=
  { tickets := [{ id := 1, token_id := 7, event_id := 1, owner_address := "A"
                  purchase_price := 0, is_used := false, used_timestamp := none
                  current_verification_token := some "tok", token_expires_at := some 1000
                  last_token_generation := 0 }]
    events := [{ id := 1, name := "FairFest" }]
    verifications := []
    fraud_alerts := []
    transfers := [] }

/-- A concrete trace verifying twice and issuing once. -/
def c1ops : List JSONDatabase.Op :=
  [JSONDatabase.Op.verify "tok" {} 500,
   JSONDatabase.Op.verify "tok" {} 600,
   JSONDatabase.Op.issue 1 "A" 700 (List.replicate 16 0)]

theorem claim_C1_witness :
    ((c1db.tickets.map (fun t => t.id)).Nodup)
      ∧ (JSONDatabase.countValids sampleSha c1db 1 c1ops ≤ 1
          ∧ (JSONDatabase.usedAt c1db 1 →
              JSONDatabase.usedAt (JSONDatabase.run sampleSha c1db c1ops) 1)
          ∧ (JSONDatabase.isValidVerify c1db (JSONDatabase.Op.fraudCheck none "x" 0) = false →
              (JSONDatabase.step sampleSha c1db (JSONDatabase.Op.fraudCheck none "x" 0)).tickets.map
                  (fun t => t.is_used)
                = c1db.tickets.map (fun t => t.is_used))) :=
  ⟨by decide,
    claim_C1_at_most_one_valid sampleSha c1db c1ops (JSONDatabase.Op.fraudCheck none "x" 0) 1
      (by decide)⟩

/-- C2 (amended): the JSON engine classifies each verification into exactly
the four spec outcomes, in the spec precedence order (NotFound, then
AlreadyUsed, then Expired with a strict time comparison, then Valid). -/
theorem claim_C2_outcome_precedence (db : JSONDatabase.DB) (tok : String)
    (sc : JSONDatabase.ScannerInfo) (now : Nat) :
    JSONDatabase.outcomeOfResult (JSONDatabase.verifyQRCode db tok sc now).1.result
      = some (JSONDatabase.specOutcome db tok now) := by
  simp only [JSONDatabase.verifyQRCode, JSONDatabase.specOutcome]
  split
  · rfl
  · rename_i ticket hfind
    by_cases husedt : ticket.is_used = true
    · rw [if_pos husedt, if_pos husedt]
      rfl
    · rw [if_neg husedt, if_neg husedt]
      by_cases hexp : now > JSONDatabase.expiryMs ticket
      · rw [if_pos hexp, if_pos hexp]
        rfl
      · rw [if_neg hexp, if_neg hexp]
        rfl

/-- A Mongo state in which a ticket holds an (expired) token: the token was
issued for `T1`, expired at 100 ms, and neither the QR document nor the
ticket is used. -/
def c2mongoDB : FairPassMongoDB.MDB :=
  { tickets := [{ oid := "T1", tokenId := 1, eventId := "E1", ownerAddress := "A"
                  isUsed := false }]
    qrverifications := [{ oid := 1, verificationToken := "tok0", ticketId := "T1"
                          tokenId := 1, eventId := "E1", ownerAddress := "A"
                          expiresAt := 100, isUsed := false, qrType := "standard"
                          generatedAt := 0 }]
    fraudalerts := [] }

/-- C2 counterexample: in the Mongo variant (cited by the claim), a token
that a ticket currently holds, with the used flag false and the current
time strictly past the stored expiry, is classified `invalid` (the merged
not-found class) instead of the `expired` outcome the claimed precedence
requires; so the outcome is not decided by the claimed four-way rule. -/
theorem claim_C2_counterexample :
    FairPassMongoDB.holdsToken c2mongoDB "tok0" = true
      ∧ c2mongoDB.qrverifications.all (fun q => q.isUsed == false) = true
      ∧ c2mongoDB.tickets.all (fun t => t.isUsed == false) = true
      ∧ (200 : Nat) > 100
      ∧ (FairPassMongoDB.verifyQRCode c2mongoDB "tok0" 200).1.2.1 = "invalid"
      ∧ (FairPassMongoDB.verifyQRCode c2mongoDB "tok0" 200).1.2.1 ≠ "expired" := by
  decide

/-- C3 (amended): within an unexpired window the JSON issuance is
idempotent: both calls return the stored token with the stored expiry
unchanged and leave the database untouched, and the remaining-seconds
value is monotonically decreasing across the two calls.  (The Mongo
variant cited by the claim is not idempotent; see the counterexample.) -/
theorem claim_C3_issue_idempotent (shaBytes : String → List Nat)
    (db : JSONDatabase.DB) (ticketId : Nat) (owner : String)
    (t : JSONDatabase.Ticket) (tok : String) (e t1 t2 : Nat)
    (rnd1 rnd2 : List Nat)
    (hfind : db.tickets.find? (fun x => x.id == ticketId) = some t)
    (howner : t.owner_address = owner)
    (htok : t.current_verification_token = some tok)
    (hexp : t.token_expires_at = some e)
    (h1 : t1 < e) (h2 : t2 < e) (h12 : t1 ≤ t2) :
    JSONDatabase.generateSecureQRData shaBytes db ticketId owner t1 rnd1
        = .ok ({ verificationToken := tok, expiresAt := e, ticketId := t.id
                 tokenId := t.token_id, eventId := t.event_id
                 timeRemaining := (e - t1) / 1000 }, db)
      ∧ JSONDatabase.generateSecureQRData shaBytes db ticketId owner t2 rnd2
        = .ok ({ verificationToken := tok, expiresAt := e, ticketId := t.id
                 tokenId := t.token_id, eventId := t.event_id
                 timeRemaining := (e - t2) / 1000 }, db)
      ∧ (e - t2) / 1000 ≤ (e - t1) / 1000 := by
  have he : JSONDatabase.expiryMs t = e := by
    simp [JSONDatabase.expiryMs, hexp]
  refine ⟨?_, ?_, Nat.div_le_div_right (Nat.sub_le_sub_left h12 e)⟩
  · simp only [JSONDatabase.generateSecureQRData, hfind, htok, he, howner]
    rw [if_neg (by simp), if_pos h1]
  · simp only [JSONDatabase.generateSecureQRData, hfind, htok, he, howner]
    rw [if_neg (by simp), if_pos h2]

/-- A one-ticket JSON database with a live token expiring at 1000 ms. -/
def c3db : JSONDatabase.DB :=
  { tickets := [{ id := 1, token_id := 7, event_id := 1, owner_address := "A"
                  purchase_price := 0, is_used := false, used_timestamp := none
                  current_verification_token := some "tok", token_expires_at := some 1000
                  last_token_generation := 0 }]
    events := []
    verifications := []
    fraud_alerts := []
    transfers := [] }

theorem claim_C3_witness :
    (c3db.tickets.find? (fun x => x.id == 1)
        = some { id := 1, token_id := 7, event_id := 1, owner_address := "A"
                 purchase_price := 0, is_used := false, used_timestamp := none
                 current_verification_token := some "tok", token_expires_at := some 1000
                 last_token_generation := 0 })
      ∧ (JSONDatabase.generateSecureQRData sampleSha c3db 1 "A" 200 []
          = .ok ({ verificationToken := "tok", expiresAt := 1000, ticketId := 1
                   tokenId := 7, eventId := 1, timeRemaining := (1000 - 200) / 1000 }, c3db)
        ∧ JSONDatabase.generateSecureQRData sampleSha c3db 1 "A" 600 []
          = .ok ({ verificationToken := "tok", expiresAt := 1000, ticketId := 1
                   tokenId := 7, eventId := 1, timeRemaining := (1000 - 600) / 1000 }, c3db)
        ∧ (1000 - 600) / 1000 ≤ (1000 - 200) / 1000) :=
  ⟨by decide,
    claim_C3_issue_idempotent sampleSha c3db 1 "A"
      { id := 1, token_id := 7, event_id := 1, owner_address := "A"
        purchase_price := 0, is_used := false, used_timestamp := none
        current_verification_token := some "tok", token_expires_at := some 1000
        last_token_generation := 0 }
      "tok" 1000 200 600 [] [] (by decide) (by decide) (by decide) (by decide)
      (by decide) (by decide) (by decide)⟩

/-- A Mongo state whose ticket `T1` has a live (unexpired) token `tok0`. -/
def c3mongoDB : FairPassMongoDB.MDB :=
  { tickets := [{ oid := "T1", tokenId := 1, eventId := "E1", ownerAddress := "A"
                  isUsed := false }]
    qrverifications := [{ oid := 1, verificationToken := "tok0", ticketId := "T1"
                          tokenId := 1, eventId := "E1", ownerAddress := "A"
                          expiresAt := 100000, isUsed := false, qrType := "standard"
                          generatedAt := 0 }]
    fraudalerts := [] }

/-- C3 counterexample: the Mongo issuance path cited by the claim is not
idempotent: with the ticket holding a token unexpired at the call time
(0 < 100000), a second IssueToken call returns a brand-new token value and
writes a second token document instead of returning the stored token
unchanged. -/
theorem claim_C3_counterexample :
    (0 : Nat) < 100000
      ∧ c3mongoDB.qrverifications.map (fun q => q.verificationToken) = ["tok0"]
      ∧ (FairPassMongoDB.generateSecureQR c3mongoDB "T1" "A" 0 (fun _ => 0)).toOption.map
            (fun p => (p.1.verificationToken, p.2.qrverifications.length))
          = some ("AAAAAAAAAAAAAAAAAAAAAAAAAAAAAAAA", 2)
      ∧ ("AAAAAAAAAAAAAAAAAAAAAAAAAAAAAAAA" : String) ≠ "tok0" := by
  decide

namespace FairPassDB

theorem sql_verifications_checkForFraud (db : DB) (tid : Option Nat) (tok : String) (now : Nat) :
    (checkForFraud db tid tok now).verifications = db.verifications := by
  unfold checkForFraud
  match tid with
  | none => rfl
  | some t =>
    simp only
    split <;> rfl

theorem fraud_alerts_logVerification (db : DB) (tid : Option Nat) (tok r : String)
    (sb : Option String) (now : Nat) :
    (logVerification db tid tok r sb now).fraud_alerts = db.fraud_alerts := by
  unfold logVerification
  match tid with
  | none => rfl
  | some t => rfl

end FairPassDB

/-- C4 (amended): every call to the JSON-variant VerifyToken appends exactly
one VerificationAttempt record regardless of outcome; the SQLite variant
appends one record only when the submitted token resolves to a ticket and
appends none when it does not. -/
theorem claim_C4_one_attempt_per_call (db : JSONDatabase.DB) (tok : String)
    (sc : JSONDatabase.ScannerInfo) (now : Nat)
    (db2 : FairPassDB.DB) (tok2 : String) (sb2 : Option String) (now2 : Nat) :
    (JSONDatabase.verifyQRCode db tok sc now).2.verifications.length
        = db.verifications.length + 1
      ∧ ((FairPassDB.resolveTicket db2 tok2).isSome →
          (FairPassDB.verifyQRCode db2 tok2 sb2 now2).2.verifications.length
            = db2.verifications.length + 1)
      ∧ (FairPassDB.resolveTicket db2 tok2 = none →
          (FairPassDB.verifyQRCode db2 tok2 sb2 now2).2.verifications
            = db2.verifications) := by
  refine ⟨?_, ?_, ?_⟩
  · simp only [JSONDatabase.verifyQRCode]
    split
    · simp [JSONDatabase.verifications_checkForFraud, JSONDatabase.logVerificationAttempt]
    · split
      · simp [JSONDatabase.logVerificationAttempt]
      · split
        · simp [JSONDatabase.logVerificationAttempt,
            JSONDatabase.verifications_logFraudAttempt]
        · simp [JSONDatabase.logVerificationAttempt]
  · intro h
    rcases hr : FairPassDB.resolveTicket db2 tok2 with _ | t
    · rw [hr] at h; simp at h
    · simp only [FairPassDB.verifyQRCode, hr]
      by_cases hused : t.is_used = true
      · rw [if_pos hused]
        simp [FairPassDB.logVerification, FairPassDB.sql_verifications_checkForFraud]
      · rw [if_neg hused]
        by_cases hexp : now2 > FairPassDB.expiryMs t
        · rw [if_pos hexp]
          simp [FairPassDB.logVerification, FairPassDB.sql_verifications_checkForFraud]
        · rw [if_neg hexp]
          simp [FairPassDB.logVerification, FairPassDB.sql_verifications_checkForFraud]
  · intro h
    simp only [FairPassDB.verifyQRCode, h]
    simp [FairPassDB.logVerification, FairPassDB.sql_verifications_checkForFraud]

/-- An empty JSON database used to instantiate the C4 witness. -/
def c4jsonDB : JSONDatabase.DB :=
  { tickets := [], events := [], verifications := [], fraud_alerts := [], transfers := [] }

/-- A SQLite database with one resolvable token `tok`. -/
def c4sqlDB : FairPassDB.DB :=
  { tickets := [{ id := 1, token_id := 7, event_id := 1, owner_address := "A"
                  is_used := false, used_timestamp := none
                  current_verification_token := some "tok", token_expires_at := some 1000 }]
    events := [{ id := 1, name := "FairFest" }]
    verifications := []
    fraud_alerts := [] }

theorem claim_C4_witness :
    (FairPassDB.resolveTicket c4sqlDB "tok").isSome = true
      ∧ ((JSONDatabase.verifyQRCode c4jsonDB "garbage" {} 0).2.verifications.length
            = c4jsonDB.verifications.length + 1
          ∧ ((FairPassDB.resolveTicket c4sqlDB "tok").isSome →
              (FairPassDB.verifyQRCode c4sqlDB "tok" none 5).2.verifications.length
                = c4sqlDB.verifications.length + 1)
          ∧ (FairPassDB.resolveTicket c4sqlDB "tok" = none →
              (FairPassDB.verifyQRCode c4sqlDB "tok" none 5).2.verifications
                = c4sqlDB.verifications)) :=
  ⟨by decide, claim_C4_one_attempt_per_call c4jsonDB "garbage" {} 0 c4sqlDB "tok" none 5⟩

/-- A SQLite database holding a ticket whose token differs from the
submitted value, so the submitted token resolves to no ticket. -/
def c4sqlNoDB : FairPassDB.DB :=
  { tickets := [{ id := 1, token_id := 7, event_id := 1, owner_address := "A"
                  is_used := false, used_timestamp := none
                  current_verification_token := some "tok1", token_expires_at := some 1000 }]
    events := [{ id := 1, name := "FairFest" }]
    verifications := []
    fraud_alerts := [] }

/-- C4 counterexample: in the SQLite variant cited by the claim, a
VerifyToken call whose token resolves to no ticket appends no
VerificationAttempt record at all (`logVerification` returns early without
a ticket id), refuting the claim that every call appends exactly one. -/
theorem claim_C4_counterexample :
    FairPassDB.resolveTicket c4sqlNoDB "garbage" = none
      ∧ (FairPassDB.verifyQRCode c4sqlNoDB "garbage" none 0).1.1 = "invalid"
      ∧ (FairPassDB.verifyQRCode c4sqlNoDB "garbage" none 0).2.verifications = [] := by
  decide

namespace JSONDatabase

/-- The audit record appended by the unresolvable-token path of
`verifyQRCode`. -/
def attemptRecord (db : DB) (tok : String) (sc : ScannerInfo) (tnow : Nat) : Verification :=
  { id := db.verifications.length + 1
    ticket_id := none
    verification_token := tok
    scanned_by := sc.scannerAddress
    scan_timestamp := tnow
    scan_result := "invalid"
    scan_location := sc.location
    ip_address := sc.ipAddress }

/-- On a token no ticket holds, `verifyQRCode` logs one attempt and then
runs the fraud evaluation. -/
theorem verify_unresolvable (db : DB) (tok : String) (sc : ScannerInfo) (tnow : Nat)
    (hb : ∀ t ∈ db.tickets, t.current_verification_token ≠ some tok) :
    (verifyQRCode db tok sc tnow).2
      = checkForFraud (logVerificationAttempt db none tok "invalid" sc tnow) none tok tnow := by
  have hf : db.tickets.find? (fun t => t.current_verification_token == some tok) = none := by
    rw [List.find?_eq_none]
    intro t ht
    simp [hb t ht]
  simp only [verifyQRCode, hf]

/-- The fraud-alert effect of one fraud evaluation, split on the
sliding-window count. -/
theorem checkForFraud_fraud_alerts (db : DB) (tid : Option Nat) (tok : String) (tnow : Nat) :
    ((recentAttempts db tok tnow).length ≤ 3 →
        (checkForFraud db tid tok tnow).fraud_alerts = db.fraud_alerts)
      ∧ ((recentAttempts db tok tnow).length > 3 →
          ∃ a, (checkForFraud db tid tok tnow).fraud_alerts = db.fraud_alerts ++ [a]
            ∧ a.alert_type = "suspicious_activity" ∧ a.ticket_id = tid) := by
  constructor
  · intro hle
    simp only [checkForFraud]
    rw [if_neg (by omega)]
  · intro hgt
    simp only [checkForFraud]
    rw [if_pos hgt]
    exact ⟨_, rfl, rfl, rfl⟩

/-- One unresolvable-token verification on a database whose attempts with
this token form a suffix `rs` of length at most 2: the tickets are
untouched, exactly the one attempt record is appended, and no fraud alert
fires (at most three attempts fall in any window). -/
theorem unresolvable_step (db : DB) (tok : String) (sc : ScannerInfo) (tnow : Nat)
    (V0 rs : List Verification)
    (hb : ∀ t ∈ db.tickets, t.current_verification_token ≠ some tok)
    (hV : db.verifications = V0 ++ rs)
    (hV0 : ∀ v ∈ V0, v.verification_token ≠ tok)
    (hlen : rs.length ≤ 2) :
    (verifyQRCode db tok sc tnow).2.tickets = db.tickets
      ∧ (verifyQRCode db tok sc tnow).2.verifications
          = db.verifications ++ [attemptRecord db tok sc tnow]
      ∧ (verifyQRCode db tok sc tnow).2.fraud_alerts = db.fraud_alerts := by
  rw [verify_unresolvable db tok sc tnow hb]
  refine ⟨by rw [tickets_checkForFraud]; rfl, by rw [verifications_checkForFraud]; rfl, ?_⟩
  have hcount : (recentAttempts (logVerificationAttempt db none tok "invalid" sc tnow)
      tok tnow).length ≤ 3 := by
    have hverif : (logVerificationAttempt db none tok "invalid" sc tnow).verifications
        = (V0 ++ rs) ++ [attemptRecord db tok sc tnow] := by
      simp only [logVerificationAttempt, attemptRecord, hV]
    simp only [recentAttempts, hverif, List.filter_append]
    have h0 : V0.filter (fun v => v.verification_token == tok
        && decide ((v.scan_timestamp : Int) > (tnow : Int) - 5 * 60 * 1000)) = [] := by
      rw [List.filter_eq_nil_iff]
      intro v hv
      simp [hV0 v hv]
    rw [h0]
    simp only [List.nil_append, List.length_append]
    have h1 := List.length_filter_le (fun v => v.verification_token == tok
        && decide ((v.scan_timestamp : Int) > (tnow : Int) - 5 * 60 * 1000)) rs
    have h2 := List.length_filter_le (fun v => v.verification_token == tok
        && decide ((v.scan_timestamp : Int) > (tnow : Int) - 5 * 60 * 1000))
      [attemptRecord db tok sc tnow]
    simp only [List.length_cons, List.length_nil] at h2
    omega
  exact (checkForFraud_fraud_alerts _ none tok tnow).1 hcount

/-- The fourth unresolvable-token verification inside the trailing window:
the sliding-window count reaches four and one `suspicious_activity` alert
is appended. -/
theorem unresolvable_step_alert (db : DB) (tok : String) (sc : ScannerInfo) (t4 : Nat)
    (V0 rs : List Verification)
    (hb : ∀ t ∈ db.tickets, t.current_verification_token ≠ some tok)
    (hV : db.verifications = V0 ++ rs)
    (hV0 : ∀ v ∈ V0, v.verification_token ≠ tok)
    (hrs : ∀ r ∈ rs, r.verification_token = tok)
    (hlen : rs.length = 3)
    (hwin : ∀ r ∈ rs, (t4 : Int) - 5 * 60 * 1000 < (r.scan_timestamp : Int)) :
    ∃ a, (verifyQRCode db tok sc t4).2.fraud_alerts = db.fraud_alerts ++ [a]
      ∧ a.alert_type = "suspicious_activity" := by
  rw [verify_unresolvable db tok sc t4 hb]
  have hverif : (logVerificationAttempt db none tok "invalid" sc t4).verifications
      = (V0 ++ rs) ++ [attemptRecord db tok sc t4] := by
    simp only [logVerificationAttempt, attemptRecord, hV]
  have hcount : (recentAttempts (logVerificationAttempt db none tok "invalid" sc t4)
      tok t4).length > 3 := by
    simp only [recentAttempts, hverif, List.filter_append]
    have h0 : V0.filter (fun v => v.verification_token == tok
        && decide ((v.scan_timestamp : Int) > (t4 : Int) - 5 * 60 * 1000)) = [] := by
      rw [List.filter_eq_nil_iff]
      intro v hv
      simp [hV0 v hv]
    have h1 : rs.filter (fun v => v.verification_token == tok
        && decide ((v.scan_timestamp : Int) > (t4 : Int) - 5 * 60 * 1000)) = rs := by
      rw [List.filter_eq_self]
      intro v hv
      simp only [Bool.and_eq_true, beq_iff_eq, decide_eq_true_eq]
      exact ⟨hrs v hv, hwin v hv⟩
    have hc : ((attemptRecord db tok sc t4).verification_token == tok
        && decide (((attemptRecord db tok sc t4).scan_timestamp : Int)
          > (t4 : Int) - 5 * 60 * 1000)) = true := by
      simp only [attemptRecord, beq_self_eq_true, Bool.true_and, decide_eq_true_eq]
      omega
    have h2 : ([attemptRecord db tok sc t4].filter (fun v => v.verification_token == tok
        && decide ((v.scan_timestamp : Int) > (t4 : Int) - 5 * 60 * 1000))).length = 1 := by
      rw [List.filter_cons, if_pos hc]
      rfl
    rw [h0, h1]
    simp only [List.nil_append, List.length_append, h2, hlen]
    omega
  obtain ⟨a, ha, htyp, _⟩ := (checkForFraud_fraud_alerts _ none tok t4).2 hcount
  refine ⟨a, ?_, htyp⟩
  rw [ha]
  rfl

end JSONDatabase

/-- C5 (amended): in the JSON engine, under the default thresholds,
submitting the same unresolvable token three times leaves the fraud-alert
table unchanged, while a fourth submission whose trailing five-minute
window covers all four attempts appends a `suspicious_activity` alert; the
count is the sliding-window filter over attempts sharing the exact token,
re-evaluated on every attempt.  (The SQLite variant cited by the claim
never alerts on unresolvable tokens; see the counterexample.) -/
theorem claim_C5_fraud_threshold (db0 : JSONDatabase.DB) (tok : String)
    (sc1 sc2 sc3 sc4 : JSONDatabase.ScannerInfo) (t1 t2 t3 t4 : Nat)
    (hb : ∀ t ∈ db0.tickets, t.current_verification_token ≠ some tok)
    (ha : ∀ v ∈ db0.verifications, v.verification_token ≠ tok)
    (h12 : t1 ≤ t2) (h23 : t2 ≤ t3) (h34 : t3 ≤ t4)
    (hwin : (t4 : Int) - 5 * 60 * 1000 < (t1 : Int)) :
    (JSONDatabase.verifyQRCode (JSONDatabase.verifyQRCode
          (JSONDatabase.verifyQRCode db0 tok sc1 t1).2 tok sc2 t2).2
        tok sc3 t3).2.fraud_alerts = db0.fraud_alerts
      ∧ ∃ a, (JSONDatabase.verifyQRCode (JSONDatabase.verifyQRCode
            (JSONDatabase.verifyQRCode (JSONDatabase.verifyQRCode db0 tok sc1 t1).2
              tok sc2 t2).2 tok sc3 t3).2 tok sc4 t4).2.fraud_alerts
          = (JSONDatabase.verifyQRCode (JSONDatabase.verifyQRCode
              (JSONDatabase.verifyQRCode db0 tok sc1 t1).2 tok sc2 t2).2
             tok sc3 t3).2.fraud_alerts ++ [a]
          ∧ a.alert_type = "suspicious_activity" := by
  set r1 := JSONDatabase.attemptRecord db0 tok sc1 t1 with hr1
  set db1 := (JSONDatabase.verifyQRCode db0 tok sc1 t1).2 with hdb1
  have s1 := JSONDatabase.unresolvable_step db0 tok sc1 t1 db0.verifications [] hb
    (by simp) ha (by simp)
  have hb1 : ∀ t ∈ db1.tickets, t.current_verification_token ≠ some tok := by
    rw [← hdb1] at s1
    rw [s1.1]
    exact hb
  have hV1 : db1.verifications = db0.verifications ++ [r1] := s1.2.1
  set r2 := JSONDatabase.attemptRecord db1 tok sc2 t2 with hr2
  set db2 := (JSONDatabase.verifyQRCode db1 tok sc2 t2).2 with hdb2
  have s2 := JSONDatabase.unresolvable_step db1 tok sc2 t2 db0.verifications [r1] hb1
    hV1 ha (by simp)
  have hb2 : ∀ t ∈ db2.tickets, t.current_verification_token ≠ some tok := by
    rw [← hdb2] at s2
    rw [s2.1]
    exact hb1
  have hV2 : db2.verifications = db0.verifications ++ [r1, r2] := by
    rw [s2.2.1, hV1]
    simp
  set r3 := JSONDatabase.attemptRecord db2 tok sc3 t3 with hr3
  set db3 := (JSONDatabase.verifyQRCode db2 tok sc3 t3).2 with hdb3
  have s3 := JSONDatabase.unresolvable_step db2 tok sc3 t3 db0.verifications [r1, r2] hb2
    hV2 ha (by simp)
  have hb3 : ∀ t ∈ db3.tickets, t.current_verification_token ≠ some tok := by
    rw [← hdb3] at s3
    rw [s3.1]
    exact hb2
  have hV3 : db3.verifications = db0.verifications ++ [r1, r2, r3] := by
    rw [s3.2.1, hV2]
    simp
  have hfraud3 : db3.fraud_alerts = db0.fraud_alerts := by
    rw [s3.2.2, s2.2.2, s1.2.2]
  refine ⟨hfraud3, ?_⟩
  have hts1 : r1.scan_timestamp = t1 := rfl
  have hts2 : r2.scan_timestamp = t2 := rfl
  have hts3 : r3.scan_timestamp = t3 := rfl
  have s4 := JSONDatabase.unresolvable_step_alert db3 tok sc4 t4 db0.verifications
    [r1, r2, r3] hb3 hV3 ha
    (by
      intro r hr
      simp only [List.mem_cons, List.not_mem_nil, or_false] at hr
      rcases hr with rfl | rfl | rfl <;> rfl)
    (by simp)
    (by
      intro r hr
      simp only [List.mem_cons, List.not_mem_nil, or_false] at hr
      rcases hr with rfl | rfl | rfl
      · rw [hts1]; omega
      · rw [hts2]; omega
      · rw [hts3]; omega)
  exact s4

/-- An empty JSON database for the C5 witness. -/
def c5db : JSONDatabase.DB :=
  { tickets := [], events := [], verifications := [], fraud_alerts := [], transfers := [] }

theorem claim_C5_witness :
    ((∀ t ∈ c5db.tickets, t.current_verification_token ≠ some "g")
        ∧ (∀ v ∈ c5db.verifications, v.verification_token ≠ "g")
        ∧ (0 : Nat) ≤ 0 ∧ (0 : Int) - 5 * 60 * 1000 < (0 : Int))
      ∧ ((JSONDatabase.verifyQRCode (JSONDatabase.verifyQRCode
              (JSONDatabase.verifyQRCode c5db "g" {} 0).2 "g" {} 0).2
            "g" {} 0).2.fraud_alerts = c5db.fraud_alerts
        ∧ ∃ a, (JSONDatabase.verifyQRCode (JSONDatabase.verifyQRCode
              (JSONDatabase.verifyQRCode (JSONDatabase.verifyQRCode c5db "g" {} 0).2
                "g" {} 0).2 "g" {} 0).2 "g" {} 0).2.fraud_alerts
            = (JSONDatabase.verifyQRCode (JSONDatabase.verifyQRCode
                (JSONDatabase.verifyQRCode c5db "g" {} 0).2 "g" {} 0).2
               "g" {} 0).2.fraud_alerts ++ [a]
            ∧ a.alert_type = "suspicious_activity") :=
  ⟨⟨by decide, by decide, by decide, by decide⟩,
    claim_C5_fraud_threshold c5db "g" {} {} {} {} 0 0 0 0 (by decide) (by decide)
      (by decide) (by decide) (by decide) (by decide)⟩

/-- A SQLite database with one live ticket; the token `garbage` resolves to
no ticket. -/
def c5sqlDB : FairPassDB.DB :=
  { tickets := [{ id := 1, token_id := 7, event_id := 1, owner_address := "A"
                  is_used := false, used_timestamp := none
                  current_verification_token := some "tok1", token_expires_at := some 1000 }]
    events := [{ id := 1, name := "FairFest" }]
    verifications := []
    fraud_alerts := [] }

/-- C5 counterexample: in the SQLite variant cited by the claim, submitting
the same unresolvable token four times within the window (here, at the
same instant) produces no fraud alert at all, because both the attempt log
and the fraud evaluation return early when the token resolves to no
ticket. -/
theorem claim_C5_counterexample :
    FairPassDB.resolveTicket c5sqlDB "garbage" = none
      ∧ (FairPassDB.verifyQRCode (FairPassDB.verifyQRCode (FairPassDB.verifyQRCode
            (FairPassDB.verifyQRCode c5sqlDB "garbage" none 0).2 "garbage" none 0).2
            "garbage" none 0).2 "garbage" none 0).2.fraud_alerts = [] := by
  decide

/-- C6 (amended): in every variant a missing ticket or an owner mismatch
makes IssueToken fail with the Unauthorized error, modifying nothing (the
thrown error carries no state).  The AlreadyUsed rejection exists only in
the Mongo variant; the JSON (and SQLite) issuance paths never test the used
flag, so IssueToken succeeds on a used ticket there. -/
theorem claim_C6_issue_preconditions (shaBytes : String → List Nat)
    (db : JSONDatabase.DB) (tid : Nat) (owner : String) (now : Nat) (rnd : List Nat)
    (h1 : db.tickets.find? (fun t => t.id == tid) = none
        ∨ ∃ t, db.tickets.find? (fun t => t.id == tid) = some t ∧ t.owner_address ≠ owner)
    (db2 : FairPassDB.DB) (tid2 : Nat) (owner2 : String) (now2 : Nat) (rnd2 : List Nat)
    (h2 : db2.tickets.find? (fun t => t.id == tid2) = none
        ∨ ∃ t, db2.tickets.find? (fun t => t.id == tid2) = some t ∧ t.owner_address ≠ owner2)
    (mdb : FairPassMongoDB.MDB) (mtid mowner : String) (mnow : Nat) (draws : Nat → Nat)
    (h3 : mdb.tickets.find? (fun t => t.oid == mtid && t.ownerAddress == mowner) = none)
    (mdb2 : FairPassMongoDB.MDB) (mtid2 mowner2 : String) (mnow2 : Nat) (draws2 : Nat → Nat)
    (mt : FairPassMongoDB.MTicket)
    (h4 : mdb2.tickets.find? (fun t => t.oid == mtid2 && t.ownerAddress == mowner2) = some mt)
    (h5 : mt.isUsed = true)
    (db3 : JSONDatabase.DB) (tid3 : Nat) (owner3 : String) (now3 : Nat) (rnd3 : List Nat)
    (t3 : JSONDatabase.Ticket)
    (h6 : db3.tickets.find? (fun t => t.id == tid3) = some t3)
    (h7 : t3.owner_address = owner3)
    (h8 : t3.is_used = true) :
    JSONDatabase.generateSecureQRData shaBytes db tid owner now rnd
        = .error "Unauthorized: Not ticket owner"
      ∧ FairPassDB.generateSecureQRData shaBytes db2 tid2 owner2 now2 rnd2
        = .error "Unauthorized: Not ticket owner"
      ∧ FairPassMongoDB.generateSecureQR mdb mtid mowner mnow draws
        = .error "QR generation failed: Ticket not found or you do not own this ticket"
      ∧ FairPassMongoDB.generateSecureQR mdb2 mtid2 mowner2 mnow2 draws2
        = .error "QR generation failed: Ticket has already been used"
      ∧ (JSONDatabase.generateSecureQRData shaBytes db3 tid3 owner3 now3 rnd3).isOk
        = true := by
  refine ⟨?_, ?_, ?_, ?_, ?_⟩
  · rcases h1 with hnone | ⟨t, hfind, hne⟩
    · simp [JSONDatabase.generateSecureQRData, hnone]
    · simp only [JSONDatabase.generateSecureQRData, hfind]
      rw [if_pos hne]
  · rcases h2 with hnone | ⟨t, hfind, hne⟩
    · simp [FairPassDB.generateSecureQRData, hnone]
    · simp only [FairPassDB.generateSecureQRData, hfind]
      rw [if_pos hne]
  · simp [FairPassMongoDB.generateSecureQR, h3]
  · simp only [FairPassMongoDB.generateSecureQR, h4]
    rw [if_pos h5]
  · rcases htok : t3.current_verification_token with _ | tok
    · simp only [JSONDatabase.generateSecureQRData, h6, htok]
      rw [if_neg (by simp [h7])]
      rfl
    · simp only [JSONDatabase.generateSecureQRData, h6, htok]
      rw [if_neg (by simp [h7])]
      split <;> rfl

/-- An empty JSON database (no ticket with id 1). -/
def c6jsonDB : JSONDatabase.DB :=
  { tickets := [], events := [], verifications := [], fraud_alerts := [], transfers := [] }

/-- An empty SQLite database. -/
def c6sqlDB : FairPassDB.DB :=
  { tickets := [], events := [], verifications := [], fraud_alerts := [] }

/-- An empty Mongo database. -/
def c6mongoDB : FairPassMongoDB.MDB :=
  { tickets := [], qrverifications := [], fraudalerts := [] }

/-- A Mongo database whose only ticket is already used. -/
def c6mongoUsedDB : FairPassMongoDB.MDB :=
  { tickets := [{ oid := "T1", tokenId := 1, eventId := "E1", ownerAddress := "A"
                  isUsed := true }]
    qrverifications := [], fraudalerts := [] }

/-- A JSON database whose only ticket is already used and holds an expired
token. -/
def c6jsonUsedDB : JSONDatabase.DB :=
  { tickets := [{ id := 1, token_id := 7, event_id := 1, owner_address := "A"
                  purchase_price := 0, is_used := true, used_timestamp := some 5
                  current_verification_token := some "x", token_expires_at := some 10
                  last_token_generation := 0 }]
    events := [], verifications := [], fraud_alerts := [], transfers := [] }

theorem claim_C6_witness :
    (c6jsonDB.tickets.find? (fun t => t.id == 1) = none
        ∧ c6sqlDB.tickets.find? (fun t => t.id == 1) = none
        ∧ c6mongoDB.tickets.find? (fun t => t.oid == "T1" && t.ownerAddress == "A") = none
        ∧ c6mongoUsedDB.tickets.find? (fun t => t.oid == "T1" && t.ownerAddress == "A")
            = some { oid := "T1", tokenId := 1, eventId := "E1", ownerAddress := "A"
                     isUsed := true }
        ∧ c6jsonUsedDB.tickets.find? (fun t => t.id == 1)
            = some { id := 1, token_id := 7, event_id := 1, owner_address := "A"
                     purchase_price := 0, is_used := true, used_timestamp := some 5
                     current_verification_token := some "x", token_expires_at := some 10
                     last_token_generation := 0 })
      ∧ (JSONDatabase.generateSecureQRData sampleSha c6jsonDB 1 "A" 0 []
            = .error "Unauthorized: Not ticket owner"
        ∧ FairPassDB.generateSecureQRData sampleSha c6sqlDB 1 "A" 0 []
            = .error "Unauthorized: Not ticket owner"
        ∧ FairPassMongoDB.generateSecureQR c6mongoDB "T1" "A" 0 (fun _ => 0)
            = .error "QR generation failed: Ticket not found or you do not own this ticket"
        ∧ FairPassMongoDB.generateSecureQR c6mongoUsedDB "T1" "A" 0 (fun _ => 0)
            = .error "QR generation failed: Ticket has already been used"
        ∧ (JSONDatabase.generateSecureQRData sampleSha c6jsonUsedDB 1 "A" 20
              (List.replicate 16 0)).isOk = true) :=
  ⟨⟨by decide, by decide, by decide, by decide, by decide⟩,
    claim_C6_issue_preconditions sampleSha c6jsonDB 1 "A" 0 [] (Or.inl (by decide))
      c6sqlDB 1 "A" 0 [] (Or.inl (by decide))
      c6mongoDB "T1" "A" 0 (fun _ => 0) (by decide)
      c6mongoUsedDB "T1" "A" 0 (fun _ => 0)
      { oid := "T1", tokenId := 1, eventId := "E1", ownerAddress := "A", isUsed := true }
      (by decide) (by decide)
      c6jsonUsedDB 1 "A" 20 (List.replicate 16 0)
      { id := 1, token_id := 7, event_id := 1, owner_address := "A"
        purchase_price := 0, is_used := true, used_timestamp := some 5
        current_verification_token := some "x", token_expires_at := some 10
        last_token_generation := 0 }
      (by decide) (by decide) (by decide)⟩

/-- C6 counterexample: the JSON issuance path cited by the claim does not
fail with AlreadyUsed on a used ticket: with the only ticket used (flag
true) and its token expired, IssueToken by the owner succeeds and returns a
fresh token. -/
theorem claim_C6_counterexample :
    c6jsonUsedDB.tickets.map (fun t => t.is_used) = [true]
      ∧ (JSONDatabase.generateSecureQRData sampleSha c6jsonUsedDB 1 "A" 20
            (List.replicate 16 0)).isOk = true := by
  decide

/-- C7 (amended): tokens issued by the JSON (and SQLite) paths are sha-256
hex digests - 64 lowercase hexadecimal characters for every 32-byte hash
output - computed over the dash-joined tuple of ticket identifier, current
timestamp and the hex of 16 fresh random bytes (128 bits of entropy).  The
Mongo issuance path cited by the claim instead builds a 32-character string
over a 62-character mixed-case alphabet from `Math.random` draws, a
derivation that involves no hash and takes neither the ticket identifier
nor a timestamp as input. -/
theorem claim_C7_token_derivation (shaBytes : String → List Nat)
    (h32 : ∀ s, (shaBytes s).length = 32) (tokenId ts : Nat) (rnd : List Nat)
    (h16 : rnd.length = 16) (draws : Nat → Nat) :
    isHexDigest64 (JSONDatabase.generateVerificationToken shaBytes tokenId ts rnd) = true
      ∧ (hexEncode rnd).data.length = 32
      ∧ (FairPassMongoDB.generateSecureToken draws).data.length = 32
      ∧ ∀ c ∈ (FairPassMongoDB.generateSecureToken draws).data,
          c ∈ FairPassMongoDB.tokenChars := by
  refine ⟨?_, ?_, ?_, ?_⟩
  · simp only [isHexDigest64, JSONDatabase.generateVerificationToken, Bool.and_eq_true,
      beq_iff_eq]
    exact ⟨by rw [hexEncode_length, h32], hexEncode_all_hex _⟩
  · rw [hexEncode_length, h16]
  · simp [FairPassMongoDB.generateSecureToken]
  · intro c hc
    simp only [FairPassMongoDB.generateSecureToken, List.mem_map] at hc
    obtain ⟨i, _, rfl⟩ := hc
    by_cases hd : draws i < FairPassMongoDB.tokenChars.length
    · rw [List.getD_eq_getElem FairPassMongoDB.tokenChars 'A' hd]
      exact List.getElem_mem hd
    · rw [List.getD_eq_default FairPassMongoDB.tokenChars 'A' (Nat.le_of_not_lt hd)]
      decide

theorem claim_C7_witness :
    ((∀ s, (sampleSha s).length = 32) ∧ (List.replicate 16 0).length = 16)
      ∧ (isHexDigest64 (JSONDatabase.generateVerificationToken sampleSha 7 0
            (List.replicate 16 0)) = true
        ∧ (hexEncode (List.replicate 16 0)).data.length = 32
        ∧ (FairPassMongoDB.generateSecureToken (fun _ => 0)).data.length = 32
        ∧ ∀ c ∈ (FairPassMongoDB.generateSecureToken (fun _ => 0)).data,
            c ∈ FairPassMongoDB.tokenChars) :=
  ⟨⟨fun _ => by simp [sampleSha], by decide⟩,
    claim_C7_token_derivation sampleSha (fun _ => by simp [sampleSha]) 7 0
      (List.replicate 16 0) (by decide) (fun _ => 0)⟩

/-- A Mongo database with one unused ticket and no issued token yet. -/
def c7mongoDB : FairPassMongoDB.MDB :=
  { tickets := [{ oid := "T1", tokenId := 1, eventId := "E1", ownerAddress := "A"
                  isUsed := false }]
    qrverifications := [], fraudalerts := [] }

/-- C7 counterexample: the Mongo issuance path stores a token that is not a
sha-256 hex digest at all (32 characters, uppercase letters included),
refuting the claim that every token stored by the engine is derived as a
one-way cryptographic hash over the (ticket id, timestamp, nonce) tuple. -/
theorem claim_C7_counterexample :
    (FairPassMongoDB.generateSecureQR c7mongoDB "T1" "A" 0 (fun _ => 0)).toOption.map
        (fun p => p.2.qrverifications.map (fun q => q.verificationToken))
      = some ["AAAAAAAAAAAAAAAAAAAAAAAAAAAAAAAA"]
      ∧ isHexDigest64 "AAAAAAAAAAAAAAAAAAAAAAAAAAAAAAAA" = false := by
  decide

namespace JSONDatabase

/-- The post-state written by the fresh-token branch of
`generateSecureQRData` (new token derived from `tokId`, expiry 30 seconds
after `now`). -/
def issuedDB (shaBytes : String → List Nat) (db : DB) (ticketId tokId now : Nat)
    (rnd : List Nat) : DB :=
  { db with
    tickets := updateFirst (fun x => x.id == ticketId)
      (fun x => { x with
        current_verification_token := some (generateVerificationToken shaBytes tokId now rnd)
        token_expires_at := some (now + 30000)
        last_token_generation := now }) db.tickets }

/-- The result object returned by the fresh-token branch. -/
def issuedQR (shaBytes : String → List Nat) (t : Ticket) (now : Nat)
    (rnd : List Nat) : QRData :=
  { verificationToken := generateVerificationToken shaBytes t.token_id now rnd
    expiresAt := now + 30000
    ticketId := t.id
    tokenId := t.token_id
    eventId := t.event_id
    timeRemaining := 30 }

end JSONDatabase

namespace FairPassMongoDB

/-- The post-state written by the standard (no-venue) branch of
`generateSecureQR`. -/
def mongoIssuedDB (db : MDB) (mtid mowner : String) (mt : MTicket) (now : Nat)
    (draws : Nat → Nat) : MDB :=
  { db with
    qrverifications := db.qrverifications ++
      [{ oid := db.qrverifications.length + 1
         verificationToken := generateSecureToken draws
         ticketId := mtid
         tokenId := mt.tokenId
         eventId := mt.eventId
         ownerAddress := mowner
         expiresAt := now + 30 * 1000
         isUsed := false
         qrType := "standard"
         generatedAt := now }] }

/-- The result object returned by the standard branch. -/
def mongoIssuedOut (mtid : String) (mt : MTicket) (now : Nat)
    (draws : Nat → Nat) : MGenOut :=
  { verificationToken := generateSecureToken draws
    ticketId := mtid
    tokenId := mt.tokenId
    expiresAt := now + 30 * 1000
    timeRemaining := 30
    qrType := "standard" }

end FairPassMongoDB

/-- C8 (amended): tokens created by the IssueToken refresh path expire
exactly 30 seconds after issuance and are returned with 30 remaining
seconds (JSON variant; the Mongo default path without location behaves the
same).  The ticket-creation issuance path cited by the claim instead stores
its initial token with a 60-second expiry (JSON and SQLite variants). -/
theorem claim_C8_expiry_window (shaBytes : String → List Nat)
    (db : JSONDatabase.DB) (ticketId : Nat) (owner : String) (now : Nat) (rnd : List Nat)
    (t : JSONDatabase.Ticket)
    (hfind : db.tickets.find? (fun x => x.id == ticketId) = some t)
    (howner : t.owner_address = owner)
    (hfresh : ¬(now < JSONDatabase.expiryMs t ∧ t.current_verification_token.isSome = true))
    (dbc : JSONDatabase.DB) (d : JSONDatabase.TicketData) (nowc : Nat) (rndc : List Nat)
    (dbs : FairPassDB.DB) (tokenIds eventIds : Nat) (owners : String) (nows : Nat)
    (rnds : List Nat)
    (mdb : FairPassMongoDB.MDB) (mtid mowner : String) (mnow : Nat) (draws : Nat → Nat)
    (mt : FairPassMongoDB.MTicket)
    (hmfind : mdb.tickets.find? (fun x => x.oid == mtid && x.ownerAddress == mowner)
        = some mt)
    (hmu : mt.isUsed = false) :
    (∃ qr db2, JSONDatabase.generateSecureQRData shaBytes db ticketId owner now rnd
          = .ok (qr, db2)
        ∧ qr.timeRemaining = 30 ∧ qr.expiresAt = now + 30000
        ∧ ∀ t2, JSONDatabase.getById db2 ticketId = some t2 →
            t2.token_expires_at = some (now + 30000))
      ∧ (∃ nt, (JSONDatabase.createTicket shaBytes dbc d nowc rndc).tickets
            = dbc.tickets ++ [nt]
          ∧ nt.token_expires_at = some (nowc + 60000)
          ∧ nt.current_verification_token.isSome = true)
      ∧ (∃ nt, (FairPassDB.createTicket shaBytes dbs tokenIds eventIds owners nows
              rnds).tickets
            = dbs.tickets ++ [nt]
          ∧ nt.token_expires_at = some (nows + 60000)
          ∧ nt.current_verification_token.isSome = true)
      ∧ (∃ out mdb2, FairPassMongoDB.generateSecureQR mdb mtid mowner mnow draws
            = .ok (out, mdb2)
          ∧ out.timeRemaining = 30 ∧ out.expiresAt = mnow + 30 * 1000
          ∧ ∃ q, mdb2.qrverifications = mdb.qrverifications ++ [q]
              ∧ q.expiresAt = mnow + 30 * 1000) := by
  refine ⟨?_, ⟨_, rfl, rfl, rfl⟩, ⟨_, rfl, rfl, rfl⟩, ?_⟩
  · have hpost : ∀ t2, JSONDatabase.getById
        (JSONDatabase.issuedDB shaBytes db ticketId t.token_id now rnd) ticketId = some t2 →
        t2.token_expires_at = some (now + 30000) := by
      intro t2 ht2
      have hupd := find?_updateFirst (fun x => x.id == ticketId)
        (fun x => { x with
          current_verification_token := some (JSONDatabase.generateVerificationToken
            shaBytes t.token_id now rnd)
          token_expires_at := some (now + 30000)
          last_token_generation := now }) (fun x => rfl) db.tickets
      simp only [JSONDatabase.getById, JSONDatabase.issuedDB] at ht2
      rw [hupd, hfind] at ht2
      simp only [Option.map_some', Option.some.injEq] at ht2
      rw [← ht2]
    rcases htok : t.current_verification_token with _ | tok
    · have hgen : JSONDatabase.generateSecureQRData shaBytes db ticketId owner now rnd
          = .ok (JSONDatabase.issuedQR shaBytes t now rnd,
                 JSONDatabase.issuedDB shaBytes db ticketId t.token_id now rnd) := by
        simp only [JSONDatabase.generateSecureQRData, hfind, htok]
        rw [if_neg (by simp [howner])]
        rfl
      exact ⟨_, _, hgen, rfl, rfl, hpost⟩
    · have hexp : ¬(now < JSONDatabase.expiryMs t) := by
        intro hlt
        exact hfresh ⟨hlt, by rw [htok]; rfl⟩
      have hgen : JSONDatabase.generateSecureQRData shaBytes db ticketId owner now rnd
          = .ok (JSONDatabase.issuedQR shaBytes t now rnd,
                 JSONDatabase.issuedDB shaBytes db ticketId t.token_id now rnd) := by
        simp only [JSONDatabase.generateSecureQRData, hfind, htok]
        rw [if_neg (by simp [howner]), if_neg hexp]
        rfl
      exact ⟨_, _, hgen, rfl, rfl, hpost⟩
  · have hgen : FairPassMongoDB.generateSecureQR mdb mtid mowner mnow draws
        = .ok (FairPassMongoDB.mongoIssuedOut mtid mt mnow draws,
               FairPassMongoDB.mongoIssuedDB mdb mtid mowner mt mnow draws) := by
      simp only [FairPassMongoDB.generateSecureQR, hmfind]
      rw [if_neg (by simp [hmu])]
      rfl
    exact ⟨_, _, hgen, rfl, rfl, _, rfl, rfl⟩

/-- The single ticket of `c8jsonDB`: unused, owner `A`, token expired at
10 ms. -/
def c8ticket : JSONDatabase.Ticket :=
  { id := 1, token_id := 7, event_id := 1, owner_address := "A"
    purchase_price := 0, is_used := false, used_timestamp := none
    current_verification_token := some "old", token_expires_at := some 10
    last_token_generation := 0 }

/-- A JSON database whose ticket holds an expired token at call time 20. -/
def c8jsonDB : JSONDatabase.DB :=
  { tickets := [c8ticket], events := [], verifications := [], fraud_alerts := []
    transfers := [] }

/-- An empty SQLite database. -/
def c8sqlDB : FairPassDB.DB :=
  { tickets := [], events := [], verifications := [], fraud_alerts := [] }

/-- The single (unused) Mongo ticket used by the C8 witness. -/
def c8mticket : FairPassMongoDB.MTicket :=
  { oid := "T1", tokenId := 1, eventId := "E1", ownerAddress := "A", isUsed := false }

/-- A Mongo database with one unused ticket. -/
def c8mongoDB : FairPassMongoDB.MDB :=
  { tickets := [c8mticket], qrverifications := [], fraudalerts := [] }

theorem claim_C8_witness :
    (c8jsonDB.tickets.find? (fun x => x.id == 1) = some c8ticket
        ∧ c8ticket.owner_address = "A"
        ∧ ¬(20 < JSONDatabase.expiryMs c8ticket
            ∧ c8ticket.current_verification_token.isSome = true)
        ∧ c8mongoDB.tickets.find? (fun x => x.oid == "T1" && x.ownerAddress == "A")
            = some c8mticket
        ∧ c8mticket.isUsed = false)
      ∧ ((∃ qr db2, JSONDatabase.generateSecureQRData sampleSha c8jsonDB 1 "A" 20 []
              = .ok (qr, db2)
            ∧ qr.timeRemaining = 30 ∧ qr.expiresAt = 20 + 30000
            ∧ ∀ t2, JSONDatabase.getById db2 1 = some t2 →
                t2.token_expires_at = some (20 + 30000))
        ∧ (∃ nt, (JSONDatabase.createTicket sampleSha c8jsonDB ⟨7, 1, "A", 0⟩ 0 []).tickets
              = c8jsonDB.tickets ++ [nt]
            ∧ nt.token_expires_at = some (0 + 60000)
            ∧ nt.current_verification_token.isSome = true)
        ∧ (∃ nt, (FairPassDB.createTicket sampleSha c8sqlDB 7 1 "A" 0 []).tickets
              = c8sqlDB.tickets ++ [nt]
            ∧ nt.token_expires_at = some (0 + 60000)
            ∧ nt.current_verification_token.isSome = true)
        ∧ (∃ out mdb2, FairPassMongoDB.generateSecureQR c8mongoDB "T1" "A" 0 (fun _ => 0)
              = .ok (out, mdb2)
            ∧ out.timeRemaining = 30 ∧ out.expiresAt = 0 + 30 * 1000
            ∧ ∃ q, mdb2.qrverifications = c8mongoDB.qrverifications ++ [q]
                ∧ q.expiresAt = 0 + 30 * 1000)) :=
  ⟨⟨by decide, by decide, by decide, by decide, by decide⟩,
    claim_C8_expiry_window sampleSha c8jsonDB 1 "A" 20 [] c8ticket (by decide) (by decide)
      (by decide) c8jsonDB ⟨7, 1, "A", 0⟩ 0 [] c8sqlDB 7 1 "A" 0 []
      c8mongoDB "T1" "A" 0 (fun _ => 0) c8mticket (by decide) (by decide)⟩

/-- An empty JSON database for the C8 counterexample. -/
def c8emptyDB : JSONDatabase.DB :=
  { tickets := [], events := [], verifications := [], fraud_alerts := [], transfers := [] }

/-- C8 counterexample: the ticket-creation issuance path cited by the claim
stores its initial verification token with a 60-second expiry, not the
claimed fixed 30-second window: the ticket created at time 0 carries
`token_expires_at = 60000`. -/
theorem claim_C8_counterexample :
    (JSONDatabase.createTicket sampleSha c8emptyDB ⟨7, 1, "A", 0⟩ 0
          (List.replicate 16 0)).tickets.map (fun t => t.token_expires_at)
        = [some 60000]
      ∧ some (60000 : Nat) ≠ some ((0 : Nat) + 30000) := by
  decide

/-- C9 (amended): fraud pattern evaluation can fire only where the code
invokes it.  In the JSON engine: `valid` and `already_used` outcomes leave
the fraud-alert table untouched; an `expired` outcome appends one direct
`expired_token` alert without running the pattern evaluation; only the
unresolvable-token (`invalid`, spec NotFound) outcome runs the
sliding-window evaluation, appending at most one `suspicious_activity`
alert.  In the SQLite engine, `valid`, `already_used` and `invalid`
outcomes leave the table untouched (for `invalid` the evaluation returns
early without a ticket id), and only `expired` runs the evaluation. -/
theorem claim_C9_fraud_hooks (db : JSONDatabase.DB) (tok : String)
    (sc : JSONDatabase.ScannerInfo) (now : Nat)
    (db2 : FairPassDB.DB) (tok2 : String) (sb2 : Option String) (now2 : Nat) :
    ((JSONDatabase.verifyQRCode db tok sc now).1.result = "valid"
        ∨ (JSONDatabase.verifyQRCode db tok sc now).1.result = "already_used" →
        (JSONDatabase.verifyQRCode db tok sc now).2.fraud_alerts = db.fraud_alerts)
      ∧ ((JSONDatabase.verifyQRCode db tok sc now).1.result = "expired" →
          ∃ a, (JSONDatabase.verifyQRCode db tok sc now).2.fraud_alerts
              = db.fraud_alerts ++ [a]
            ∧ a.alert_type = "expired_token")
      ∧ ((JSONDatabase.verifyQRCode db tok sc now).1.result = "invalid" →
          (JSONDatabase.verifyQRCode db tok sc now).2.fraud_alerts = db.fraud_alerts
            ∨ ∃ a, (JSONDatabase.verifyQRCode db tok sc now).2.fraud_alerts
                = db.fraud_alerts ++ [a]
              ∧ a.alert_type = "suspicious_activity")
      ∧ ((FairPassDB.verifyQRCode db2 tok2 sb2 now2).1.1 = "valid"
          ∨ (FairPassDB.verifyQRCode db2 tok2 sb2 now2).1.1 = "already_used"
          ∨ (FairPassDB.verifyQRCode db2 tok2 sb2 now2).1.1 = "invalid" →
          (FairPassDB.verifyQRCode db2 tok2 sb2 now2).2.fraud_alerts = db2.fraud_alerts)
      ∧ ((FairPassDB.verifyQRCode db2 tok2 sb2 now2).1.1 = "expired" →
          (FairPassDB.verifyQRCode db2 tok2 sb2 now2).2.fraud_alerts = db2.fraud_alerts
            ∨ ∃ a, (FairPassDB.verifyQRCode db2 tok2 sb2 now2).2.fraud_alerts
                = db2.fraud_alerts ++ [a]
              ∧ a.alert_type = "suspicious_activity") := by
  refine ⟨?_, ?_, ?_, ?_, ?_⟩
  · simp only [JSONDatabase.verifyQRCode]
    split
    · intro h
      rcases h with h | h <;> simp at h
    · rename_i ticket hfind
      by_cases husedt : ticket.is_used = true
      · rw [if_pos husedt]
        intro _
        rfl
      · rw [if_neg husedt]
        by_cases hexp : now > JSONDatabase.expiryMs ticket
        · rw [if_pos hexp]
          intro h
          rcases h with h | h <;> simp at h
        · rw [if_neg hexp]
          intro _
          rfl
  · simp only [JSONDatabase.verifyQRCode]
    split
    · intro h; simp at h
    · rename_i ticket hfind
      by_cases husedt : ticket.is_used = true
      · rw [if_pos husedt]
        intro h; simp at h
      · rw [if_neg husedt]
        by_cases hexp : now > JSONDatabase.expiryMs ticket
        · rw [if_pos hexp]
          intro _
          exact ⟨_, rfl, rfl⟩
        · rw [if_neg hexp]
          intro h; simp at h
  · simp only [JSONDatabase.verifyQRCode]
    split
    · intro _
      by_cases hcnt : (JSONDatabase.recentAttempts
          (JSONDatabase.logVerificationAttempt db none tok "invalid" sc now)
          tok now).length > 3
      · obtain ⟨a, ha, htyp, _⟩ := (JSONDatabase.checkForFraud_fraud_alerts
          (JSONDatabase.logVerificationAttempt db none tok "invalid" sc now)
          none tok now).2 hcnt
        right
        exact ⟨a, by rw [ha]; rfl, htyp⟩
      · left
        have := (JSONDatabase.checkForFraud_fraud_alerts
          (JSONDatabase.logVerificationAttempt db none tok "invalid" sc now)
          none tok now).1 (by omega)
        rw [this]
        rfl
    · rename_i ticket hfind
      by_cases husedt : ticket.is_used = true
      · rw [if_pos husedt]
        intro h; simp at h
      · rw [if_neg husedt]
        by_cases hexp : now > JSONDatabase.expiryMs ticket
        · rw [if_pos hexp]
          intro h; simp at h
        · rw [if_neg hexp]
          intro h; simp at h
  · rcases hr : FairPassDB.resolveTicket db2 tok2 with _ | t
    · intro _
      simp [FairPassDB.verifyQRCode, hr, FairPassDB.logVerification, FairPassDB.checkForFraud]
    · by_cases husedt : t.is_used = true
      · intro _
        simp [FairPassDB.verifyQRCode, hr, if_pos husedt,
          FairPassDB.fraud_alerts_logVerification]
      · by_cases hexp : now2 > FairPassDB.expiryMs t
        · intro h
          exfalso
          revert h
          simp only [FairPassDB.verifyQRCode, hr]
          rw [if_neg husedt, if_pos hexp]
          intro h
          rcases h with h | h | h <;> simp at h
        · intro _
          simp [FairPassDB.verifyQRCode, hr, if_neg husedt, if_neg hexp,
            FairPassDB.fraud_alerts_logVerification]
  · rcases hr : FairPassDB.resolveTicket db2 tok2 with _ | t
    · intro h
      exfalso
      revert h
      simp [FairPassDB.verifyQRCode, hr]
    · by_cases husedt : t.is_used = true
      · intro h
        exfalso
        revert h
        simp only [FairPassDB.verifyQRCode, hr]
        rw [if_pos husedt]
        intro h
        simp at h
      · by_cases hexp : now2 > FairPassDB.expiryMs t
        · intro _
          simp only [FairPassDB.verifyQRCode, hr]
          rw [if_neg husedt, if_pos hexp,
            if_pos (show (("expired" == "invalid" || "expired" == "expired") : Bool) = true
              from by decide)]
          simp only [FairPassDB.checkForFraud]
          split
          · rename_i heq
            simp at heq
          · rename_i tid heq
            simp only [Option.map_some', Option.some.injEq] at heq
            subst heq
            split
            · right
              refine ⟨{ ticket_id := t.id, alert_type := "suspicious_activity"
                        description := "Multiple scan attempts with same token"
                        created_at := now2 }, ?_, rfl⟩
              simp [FairPassDB.fraud_alerts_logVerification]
            · left
              simp [FairPassDB.fraud_alerts_logVerification]
        · intro h
          exfalso
          revert h
          simp only [FairPassDB.verifyQRCode, hr]
          rw [if_neg husedt, if_neg hexp]
          intro h
          simp at h

/-- A JSON database whose used ticket holds `tok`, with four recent
attempts on `tok` already in the audit log. -/
def c9db : JSONDatabase.DB :=
  { tickets := [{ id := 1, token_id := 7, event_id := 1, owner_address := "A"
                  purchase_price := 0, is_used := true, used_timestamp := some 50
                  current_verification_token := some "tok", token_expires_at := some 1000
                  last_token_generation := 0 }]
    events := []
    verifications :=
      [{ id := 1, ticket_id := some 1, verification_token := "tok", scanned_by := none
         scan_timestamp := 100, scan_result := "already_used", scan_location := none
         ip_address := none },
       { id := 2, ticket_id := some 1, verification_token := "tok", scanned_by := none
         scan_timestamp := 100, scan_result := "already_used", scan_location := none
         ip_address := none },
       { id := 3, ticket_id := some 1, verification_token := "tok", scanned_by := none
         scan_timestamp := 100, scan_result := "already_used", scan_location := none
         ip_address := none },
       { id := 4, ticket_id := some 1, verification_token := "tok", scanned_by := none
         scan_timestamp := 100, scan_result := "already_used", scan_location := none
         ip_address := none }]
    fraud_alerts := []
    transfers := [] }

/-- An empty SQLite database for the C9 witness. -/
def c9sqlDB : FairPassDB.DB :=
  { tickets := [], events := [], verifications := [], fraud_alerts := [] }

theorem claim_C9_witness :
    (JSONDatabase.verifyQRCode c9db "tok" {} 100).1.result = "already_used"
      ∧ (((JSONDatabase.verifyQRCode c9db "tok" {} 100).1.result = "valid"
            ∨ (JSONDatabase.verifyQRCode c9db "tok" {} 100).1.result = "already_used" →
            (JSONDatabase.verifyQRCode c9db "tok" {} 100).2.fraud_alerts = c9db.fraud_alerts)
        ∧ ((JSONDatabase.verifyQRCode c9db "tok" {} 100).1.result = "expired" →
            ∃ a, (JSONDatabase.verifyQRCode c9db "tok" {} 100).2.fraud_alerts
                = c9db.fraud_alerts ++ [a]
              ∧ a.alert_type = "expired_token")
        ∧ ((JSONDatabase.verifyQRCode c9db "tok" {} 100).1.result = "invalid" →
            (JSONDatabase.verifyQRCode c9db "tok" {} 100).2.fraud_alerts = c9db.fraud_alerts
              ∨ ∃ a, (JSONDatabase.verifyQRCode c9db "tok" {} 100).2.fraud_alerts
                  = c9db.fraud_alerts ++ [a]
                ∧ a.alert_type = "suspicious_activity")
        ∧ ((FairPassDB.verifyQRCode c9sqlDB "g" none 0).1.1 = "valid"
            ∨ (FairPassDB.verifyQRCode c9sqlDB "g" none 0).1.1 = "already_used"
            ∨ (FairPassDB.verifyQRCode c9sqlDB "g" none 0).1.1 = "invalid" →
            (FairPassDB.verifyQRCode c9sqlDB "g" none 0).2.fraud_alerts
              = c9sqlDB.fraud_alerts)
        ∧ ((FairPassDB.verifyQRCode c9sqlDB "g" none 0).1.1 = "expired" →
            (FairPassDB.verifyQRCode c9sqlDB "g" none 0).2.fraud_alerts
                = c9sqlDB.fraud_alerts
              ∨ ∃ a, (FairPassDB.verifyQRCode c9sqlDB "g" none 0).2.fraud_alerts
                  = c9sqlDB.fraud_alerts ++ [a]
                ∧ a.alert_type = "suspicious_activity")) :=
  ⟨by decide, claim_C9_fraud_hooks c9db "tok" {} 100 c9sqlDB "g" none 0⟩

/-- C9 counterexample: a VerifyToken call whose outcome is AlreadyUsed does
not invoke fraud pattern evaluation in the JSON engine: even with more than
three attempts on the same token inside the trailing window (so that an
evaluation would necessarily raise an alert), the call leaves the
fraud-alert table empty. -/
theorem claim_C9_counterexample :
    (JSONDatabase.verifyQRCode c9db "tok" {} 100).1.result = "already_used"
      ∧ 3 < (JSONDatabase.recentAttempts (JSONDatabase.verifyQRCode c9db "tok" {} 100).2
          "tok" 100).length
      ∧ (JSONDatabase.verifyQRCode c9db "tok" {} 100).2.fraud_alerts = [] := by
  decide

/-- C10: a confirmed transfer resolves a pending transfer addressed to the
recipient and, in the same ticket update, sets the new owner and nulls both
the stored verification token and its expiry, so the ticket leaves the
transfer holding no live token. -/
theorem claim_C10_transfer_clears_token (db : JSONDatabase.DB)
    (transferId recipient : String) (now : Nat) (db2 : JSONDatabase.DB)
    (h : JSONDatabase.confirmTransfer db transferId recipient now = .ok db2) :
    ∃ tr, db.transfers.find? (fun t =>
          t.transfer_id == transferId && t.to_address == recipient) = some tr
      ∧ tr.status = "pending"
      ∧ ∀ t2, JSONDatabase.getById db2 tr.ticket_id = some t2 →
          t2.owner_address = recipient
            ∧ t2.current_verification_token = none
            ∧ t2.token_expires_at = none := by
  revert h
  simp only [JSONDatabase.confirmTransfer]
  split
  · intro h; exact absurd h (by simp)
  · rename_i transfer hfindtr
    by_cases hst : transfer.status ≠ "pending"
    · rw [if_pos hst]
      intro h; exact absurd h (by simp)
    · rw [if_neg hst]
      intro h
      simp only [Except.ok.injEq] at h
      have hpending : transfer.status = "pending" := not_not.mp hst
      refine ⟨transfer, hfindtr, hpending, ?_⟩
      intro t2 ht2
      rw [← h] at ht2
      have hupd := find?_updateFirst (fun x => x.id == transfer.ticket_id)
        (fun x => { x with
          owner_address := recipient
          current_verification_token := none
          token_expires_at := none }) (fun x => rfl) db.tickets
      simp only [JSONDatabase.getById] at ht2
      rw [hupd] at ht2
      rcases hfid : db.tickets.find? (fun x => x.id == transfer.ticket_id) with _ | u
      · rw [hfid] at ht2; simp at ht2
      · rw [hfid] at ht2
        simp only [Option.map_some', Option.some.injEq] at ht2
        rw [← ht2]
        exact ⟨rfl, rfl, rfl⟩

/-- A JSON database with one ticket (holding a live token) and one pending
transfer of that ticket to `B`. -/
def c10db : JSONDatabase.DB :=
  { tickets := [{ id := 5, token_id := 7, event_id := 1, owner_address := "A"
                  purchase_price := 0, is_used := false, used_timestamp := none
                  current_verification_token := some "tok", token_expires_at := some 1000
                  last_token_generation := 0 }]
    events := []
    verifications := []
    fraud_alerts := []
    transfers := [{ id := 1, transfer_id := "tr1", ticket_id := 5, from_address := "A"
                    to_address := "B", status := "pending", expires_at := 99999
                    confirmed_at := none }] }

/-- The database produced by confirming that transfer at time 7. -/
def c10post : JSONDatabase.DB :=
  match JSONDatabase.confirmTransfer c10db "tr1" "B" 7 with
  | .ok d => d
  | .error _ => c10db

theorem claim_C10_witness :
    JSONDatabase.confirmTransfer c10db "tr1" "B" 7 = .ok c10post
      ∧ ∃ tr, c10db.transfers.find? (fun t =>
            t.transfer_id == "tr1" && t.to_address == "B") = some tr
        ∧ tr.status = "pending"
        ∧ ∀ t2, JSONDatabase.getById c10post tr.ticket_id = some t2 →
            t2.owner_address = "B"
              ∧ t2.current_verification_token = none
              ∧ t2.token_expires_at = none :=
  ⟨rfl, claim_C10_transfer_clears_token c10db "tr1" "B" 7 c10post rfl⟩
